import Mathlib

/-!
websocket-bench: the command-line front end (`main.go`).

A shallow embedding of `main.go`: the option record, the `Stress` and `Work`
command handlers and the helpers `parseTCPAddrs`, `parseRemoteAddr` and
`openFileWriter`.

Conventions of the embedding.

* Go `int` is the 64-bit signed integer of the usual build targets; values are
  carried as `Int` and the one arithmetic operation that can overflow
  (`time.Duration(x) * time.Second`) wraps modulo `2^64` through `wrapInt64`.
* A finite `float64` is carried as the rational number it denotes.
* Go `error` values are carried as their message (`Option String`, `none` = `nil`).
* Everything that `main.go` calls but does not define (the `benchmark` package,
  `websocket.NewConfig`, `net`, `os`, `filepath`) is a field of `Env`.  During one
  run every such operation is performed at most once (pool creation: once per list
  position), so its result is given as a function of its arguments.
* Every effect is appended to a trace of `Event`s, in program order.
-/

namespace WebsocketBench

/-! ## Go base types -/

/-- The type `time.Duration`: a signed 64-bit count of nanoseconds. -/
abbrev Duration := Int

/-- Two's-complement wrap-around of a mathematical integer into `int64`. -/
def wrapInt64 (z : Int) : Int :=
  (z + 9223372036854775808) % 18446744073709551616 - 9223372036854775808

/-- The constant `time.Second`, in nanoseconds. -/
def Second : Duration := 1000000000

/-- Go conversion `uint16(x)` of an `int`: the low 16 bits. -/
def uint16 (x : Int) : Nat := (x % 65536).toNat

/-- Truncation toward zero of the rational denoted by a `float64`. -/
def truncate (f : ℚ) : Int := Int.tdiv f.num (f.den : Int)

/-- Go conversion `time.Duration(f)` of a `float64`: the fraction is discarded; when the
truncated value does not fit `int64` the language leaves the result to the
implementation, here `outOfRange f`. -/
def durationOfFloat64 (outOfRange : ℚ → Int) (f : ℚ) : Duration :=
  if -9223372036854775808 ≤ truncate f ∧ truncate f ≤ 9223372036854775807 then truncate f
  else outOfRange f

/-- Go product `d * time.Second` of two `time.Duration` values. -/
def mulSecond (d : Duration) : Duration := wrapInt64 (d * Second)

/-- The type `net.IP`: a byte slice, `[]` for `nil`. -/
abbrev NetIP := List Nat

/-- The type `net.TCPAddr`. -/
structure TCPAddr where
  IP : NetIP := []
  Port : Int := 0
  Zone : String := ""
  deriving DecidableEq, Repr

/-- The part of `websocket.Config` that `main.go` reads: `Location.Scheme` and `Location.Host`. -/
structure WSConfig where
  LocationScheme : String
  LocationHost : String
  deriving DecidableEq, Repr

/-- An open `*os.File`. -/
structure File where
  name : String
  fd : Nat
  deriving DecidableEq, Repr

/-- The `io.Writer` handed to the result recorder. -/
inductive Writer where
  | stdout
  | file (f : File)
  deriving DecidableEq, Repr

/-- The two recorders of the `benchmark` package, by constructor:
`NewJSONResultRecorder(w)` and `NewTextResultRecorder(w)`. -/
inductive ResultRecorder where
  | json (w : Writer)
  | text (w : Writer)
  deriving DecidableEq, Repr

/-- The writer a recorder was built on. -/
def ResultRecorder.sink : ResultRecorder → Writer
  | .json w => w
  | .text w => w

/-- Whether a recorder is the structured (JSON) one. -/
def ResultRecorder.isJSON : ResultRecorder → Bool
  | .json _ => true
  | .text _ => false

/-- The value returned by `benchmark.NewRemoteClientPool`. -/
structure RemoteClientPool where
  handle : Nat
  deriving DecidableEq, Repr

/-- A `benchmark.ClientPool`: `NewLocalClientPool(laddr)` or a remote pool. -/
inductive ClientPool where
  | localPool (laddr : Option TCPAddr)
  | remotePool (rcp : RemoteClientPool)
  deriving DecidableEq, Repr

/-- The variable `options` of `main.go`. -/
structure Options where
  websocketOrigin : String := ""
  serverType : String := ""
  concurrent : Int := 0
  concurrentConnect : Int := 0
  sampleSize : Int := 0
  initialClients : Int := 0
  stepSize : Int := 0
  limitPercentile : Int := 0
  limitRTT : Duration := 0
  payloadPaddingSize : Int := 0
  localAddrs : List String := []
  workerListenAddr : String := ""
  workerListenPort : Int := 0
  workerAddrs : List String := []
  totalSteps : Int := 0
  interactive : Bool := false
  stepsDelay : Int := 0
  commandDelay : ℚ := 0
  commandDelayChance : Int := 0
  channel : String := ""
  format : String := ""
  filename : String := ""

/-- The type `benchmark.Config`, restricted to the fields `main.go` assigns; the defaults
are Go's zero values (what `&benchmark.Config{}` holds). -/
structure Config where
  WebsocketURL : String := ""
  WebsocketOrigin : String := ""
  ServerType : String := ""
  ClientCmd : Int := 0
  PayloadPaddingSize : Int := 0
  StepSize : Int := 0
  Concurrent : Int := 0
  ConcurrentConnect : Int := 0
  SampleSize : Int := 0
  InitialClients : Int := 0
  LimitPercentile : Int := 0
  LimitRTT : Duration := 0
  TotalSteps : Int := 0
  Interactive : Bool := false
  StepDelay : Duration := 0
  CommandDelay : Duration := 0
  CommandDelayChance : Int := 0
  ClientPools : List ClientPool := []
  ResultRecorder : Option ResultRecorder := none
  deriving DecidableEq, Repr

/-- The package variable `benchmark.RemoteAddr`; `none` marks a field `Stress` has not
assigned. -/
structure RemoteAddrVar where
  Config : Option WSConfig := none
  Secure : Option Bool := none
  Addr : Option TCPAddr := none
  Host : Option String := none
  deriving DecidableEq, Repr

/-- One effect of a run, with the result the environment gave. -/
inductive Event where
  | help
  | stat (dir : String) (err : Option String)
  | mkdirAll (dir : String) (err : Option String)
  | openFile (name : String) (err : Option String)
  | closeFile (f : File)
  | lookupHost (host : String) (err : Option String)
  | newLocalClientPool (laddr : Option TCPAddr)
  | newRemoteClientPool (addr : String) (err : Option String)
  | connectRun (c : Config) (err : Option String)
  | run (c : Config) (err : Option String)
  | flush (r : ResultRecorder) (err : Option String)
  | newWorker (addr : String) (port : Nat)
  | serve (err : Option String)
  | fatal (msg : String)
  deriving DecidableEq, Repr

/-- The value given to `panic`: a string, or an `error` (by its message). -/
inductive PanicValue where
  | str (s : String)
  | error (msg : String)
  deriving DecidableEq, Repr

/-- How a command handler ends: it returns, the process exits (`os.Exit`, `log.Fatal`),
or it panics. -/
inductive Outcome where
  | returned
  | exit (code : Nat)
  | panic (v : PanicValue)
  deriving DecidableEq, Repr

/-- Exit status of the process: `0` after a normal return of the handler, the argument of
`os.Exit`, and `2` for an unrecovered panic. -/
def Outcome.exitStatus : Outcome → Nat
  | .returned => 0
  | .exit code => code
  | .panic _ => 2

/-- What `Stress` has written so far: its local `config`, the package variables
`benchmark.CableConfig.Channel` and `benchmark.RemoteAddr`, and the trace. -/
structure State where
  config : Config := {}
  cableChannel : Option String := none
  remoteAddr : RemoteAddrVar := {}
  trace : List Event := []
  deriving DecidableEq, Repr

/-- End of a command handler. -/
structure Result where
  outcome : Outcome
  state : State
  deriving DecidableEq, Repr

/-- Everything `main.go` uses without defining it. -/
structure Env where
  /-- the constant `benchmark.ClientEchoCmd` -/
  ClientEchoCmd : Int
  /-- the constant `benchmark.ClientBroadcastCmd` -/
  ClientBroadcastCmd : Int
  /-- implementation-defined result of converting an out-of-range `float64` to `int64` -/
  float64OutOfRange : ℚ → Int
  /-- the function `filepath.Dir` -/
  filepathDir : String → String
  /-- error of `os.Stat(dir)` -/
  stat : String → Option String
  /-- error of `os.MkdirAll(dir, os.ModePerm)` -/
  mkdirAll : String → Option String
  /-- the call `os.OpenFile(name, O_WRONLY|O_CREATE|O_TRUNC, os.ModePerm)` -/
  openFile : String → Except String File
  /-- the call `websocket.NewConfig(url, origin)` -/
  newConfig : String → String → Except String WSConfig
  /-- the function `net.SplitHostPort` -/
  splitHostPort : String → Except String (String × String)
  /-- the function `net.LookupHost`: on success the first address and the remaining ones
  (the resolver never returns an empty slice together with a nil error) -/
  lookupHost : String → Except String (String × List String)
  /-- the function `net.ParseIP` -/
  parseIP : String → NetIP
  /-- the call `benchmark.NewRemoteClientPool(addr)`, for the list position of `addr` -/
  newRemoteClientPool : Nat → String → Except String RemoteClientPool
  /-- error of `benchmark.NewConnect(config).Run()` -/
  connectRun : Config → Option String
  /-- error of `benchmark.New(config).Run()` -/
  run : Config → Option String
  /-- error of `config.ResultRecorder.Flush()` -/
  flush : ResultRecorder → Option String
  /-- error of `benchmark.NewWorker(addr, port).Serve()` -/
  serve : String → Nat → Option String

/-! ## Standard library: `strconv.ParseUint(s, 10, 16)` -/

/-- The digit loop of `strconv.ParseUint` for base 10 and bit size 16: a byte that is not
a decimal digit is a syntax error, a value above `1<<16 - 1` a range error. -/
def parseUintLoop : List Char → Nat → Except String Nat
  | [], n => .ok n
  | c :: cs, n =>
    if c.isDigit then
      if n * 10 + (c.toNat - 48) > 65535 then .error "value out of range"
      else parseUintLoop cs (n * 10 + (c.toNat - 48))
    else .error "invalid syntax"

/-- The call `strconv.ParseUint(s, 10, 16)`. -/
def ParseUint (s : String) : Except String Nat :=
  if s.data = [] then .error "invalid syntax" else parseUintLoop s.data 0

/-- The number a string of decimal digits denotes (most significant digit first). -/
def decimalValue (cs : List Char) : Nat :=
  cs.foldl (fun n c => n * 10 + (c.toNat - 48)) 0

/-! ## `main.go` -/

/-- The function `parseTCPAddrs` (lines 256-267). -/
def parseTCPAddrs (env : Env) (stringAddrs : List String) : List (Option TCPAddr) :=
  let tcpAddrs : List (Option TCPAddr) :=
    stringAddrs.foldl (fun acc s => acc ++ [some { IP := env.parseIP s }]) []
  if tcpAddrs.length = 0 then [none] else tcpAddrs

/-- The function `parseRemoteAddr` (lines 269-286): the returned triple
`(*net.TCPAddr, string, error)` and the effects. -/
def parseRemoteAddr (env : Env) (url : String) :
    (Option TCPAddr × String × Option String) × List Event :=
  match env.splitHostPort url with
  | .error err => ((none, "", some err), [])
  | .ok (host, port) =>
    match env.lookupHost host with
    | .error err => ((none, "", some err), [Event.lookupHost host (some err)])
    | .ok (destIP0, _) =>
      match ParseUint port with
      | .error err => ((none, "", some err), [Event.lookupHost host none])
      | .ok nport =>
        ((some { IP := env.parseIP destIP0, Port := (nport : Int) }, host, none),
          [Event.lookupHost host none])

/-- The function `openFileWriter` (lines 288-301): the opened file, or the value it
panics with, and the effects. -/
def openFileWriter (env : Env) (options : Options) : Except PanicValue File × List Event :=
  let dir := env.filepathDir options.filename
  let mk : Option String × List Event :=
    match env.stat dir with
    | none => (none, [Event.stat dir none])
    | some e =>
      match env.mkdirAll dir with
      | none => (none, [Event.stat dir (some e), Event.mkdirAll dir none])
      | some err => (some err, [Event.stat dir (some e), Event.mkdirAll dir (some err)])
  match mk with
  | (some err, tr) => (.error (.error ("failed to create output dir: " ++ err)), tr)
  | (none, tr) =>
    match env.openFile options.filename with
    | .error err =>
      (.error (.error ("failed to open output file: " ++ err)),
        tr ++ [Event.openFile options.filename (some err)])
    | .ok file => (.ok file, tr ++ [Event.openFile options.filename none])

/-- Running the deferred `cancel()` of `Stress` (line 191), if one was registered: the
output file is closed. -/
def runDeferred (deferred : Option File) (s : State) : State :=
  match deferred with
  | none => s
  | some file => { s with trace := s.trace ++ [Event.closeFile file] }

/-- The `switch cmd.Name()` of `Stress` (lines 162-170): the updated config, or `none`
for the `default` branch. -/
def switchName (env : Env) (name : String) (config : Config) : Option Config :=
  if name = "echo" then some { config with ClientCmd := env.ClientEchoCmd }
  else if name = "broadcast" then some { config with ClientCmd := env.ClientBroadcastCmd }
  else if name = "connect" then some config
  else none

/-- Lines 185-192 of `Stress`: the writer and the deferred close, or the panic of
`openFileWriter`. -/
def chooseWriter (env : Env) (options : Options) :
    Except PanicValue (Writer × Option File) × List Event :=
  if options.filename = "" then (.ok (Writer.stdout, none), [])
  else
    match openFileWriter env options with
    | (.error v, tr) => (.error v, tr)
    | (.ok file, tr) => (.ok (Writer.file file, some file), tr)

/-- The loop over `localAddrs` in `Stress` (lines 218-220). -/
def addLocalPools (localAddrs : List (Option TCPAddr)) (s : State) : State :=
  localAddrs.foldl
    (fun s a =>
      { s with
        config := { s.config with ClientPools := s.config.ClientPools ++ [ClientPool.localPool a] }
        trace := s.trace ++ [Event.newLocalClientPool a] })
    s

/-- The loop over `options.workerAddrs` in `Stress` (lines 222-228), from list position
`i` on: `.error` is the state at `log.Fatal(err)`. -/
def addRemotePools (env : Env) : Nat → List String → State → Except State State
  | _, [], s => .ok s
  | i, a :: rest, s =>
    match env.newRemoteClientPool i a with
    | .error err =>
      .error { s with
        trace := s.trace ++ [Event.newRemoteClientPool a (some err), Event.fatal err] }
    | .ok rcp =>
      addRemotePools env (i + 1) rest
        { s with
          config := { s.config with ClientPools := s.config.ClientPools ++ [ClientPool.remotePool rcp] }
          trace := s.trace ++ [Event.newRemoteClientPool a none] }

/-- The call `config.ResultRecorder.Flush()` and what follows it (lines 243-246). -/
def flushAndReturn (env : Env) (deferred : Option File) (s : State) : Result :=
  match s.config.ResultRecorder with
  | none => ⟨.panic (.error "nil pointer dereference"), runDeferred deferred s⟩
  | some r =>
    match env.flush r with
    | some err => ⟨.exit 1, { s with trace := s.trace ++ [Event.flush r (some err), Event.fatal err] }⟩
    | none => ⟨.returned, runDeferred deferred { s with trace := s.trace ++ [Event.flush r none] }⟩

/-- Lines 230-246 of `Stress`: the controller is run, then the recorder is flushed. -/
def runBenchmark (env : Env) (name : String) (deferred : Option File) (s : State) : Result :=
  if name = "connect" then
    match env.connectRun s.config with
    | some err =>
      ⟨.exit 1, { s with trace := s.trace ++ [Event.connectRun s.config (some err), Event.fatal err] }⟩
    | none =>
      flushAndReturn env deferred { s with trace := s.trace ++ [Event.connectRun s.config none] }
  else
    match env.run s.config with
    | some err =>
      ⟨.exit 1, { s with trace := s.trace ++ [Event.run s.config (some err), Event.fatal err] }⟩
    | none =>
      flushAndReturn env deferred { s with trace := s.trace ++ [Event.run s.config none] }

/-- Lines 202-228 of `Stress`, entered with the recorder installed: the target is
resolved and the client pools are built; then the benchmark is run. -/
def resolveAndRun (env : Env) (name : String) (options : Options) (deferred : Option File)
    (s : State) : Result :=
  match env.newConfig s.config.WebsocketURL s.config.WebsocketOrigin with
  | .error err =>
    ⟨.panic (.error ("failed to generate WS config: " ++ err)), runDeferred deferred s⟩
  | .ok wsconfig =>
    let s : State :=
      { s with remoteAddr :=
          { s.remoteAddr with
            Config := some wsconfig
            Secure := some (decide (wsconfig.LocationScheme = "wss")) } }
    let s : State := { s with trace := s.trace ++ (parseRemoteAddr env wsconfig.LocationHost).2 }
    match (parseRemoteAddr env wsconfig.LocationHost).1 with
    | (_, _, some err) =>
      ⟨.panic (.error ("failed to parse remote address: " ++ err)), runDeferred deferred s⟩
    | (raddr, host, none) =>
      let s : State :=
        { s with remoteAddr := { s.remoteAddr with Addr := raddr, Host := some host } }
      let s := addLocalPools (parseTCPAddrs env options.localAddrs) s
      match addRemotePools env 0 options.workerAddrs s with
      | .error s => ⟨.exit 1, s⟩
      | .ok s => runBenchmark env name deferred s

/-- Lines 158-183 of `Stress`: the config after the plain assignments, or, when the
`switch` panics, the config as it is at that point (`.error`). -/
def configure (env : Env) (name url : String) (options : Options) : Except Config Config :=
  let config : Config :=
    { WebsocketURL := url
      WebsocketOrigin := options.websocketOrigin
      ServerType := options.serverType }
  match switchName env name config with
  | none => .error config
  | some config =>
    .ok { config with
      PayloadPaddingSize := options.payloadPaddingSize
      StepSize := options.stepSize
      Concurrent := options.concurrent
      ConcurrentConnect := options.concurrentConnect
      SampleSize := options.sampleSize
      InitialClients := options.initialClients
      LimitPercentile := options.limitPercentile
      LimitRTT := options.limitRTT
      TotalSteps := options.totalSteps
      Interactive := options.interactive
      StepDelay := mulSecond options.stepsDelay
      CommandDelay := mulSecond (durationOfFloat64 env.float64OutOfRange options.commandDelay)
      CommandDelayChance := options.commandDelayChance }

/-- The handler `Stress` (lines 152-246), run under the command name `name` with the
positional arguments `args`. -/
def Stress (env : Env) (name : String) (args : List String) (options : Options) : Result :=
  match args with
  | [url] =>
    match configure env name url options with
    | .error config => ⟨.panic (.str "invalid command name"), { config := config }⟩
    | .ok config =>
      match (chooseWriter env options).1 with
      | .error v => ⟨.panic v, { config := config, trace := (chooseWriter env options).2 }⟩
      | .ok (writer, deferred) =>
        let config : Config :=
          { config with
            ResultRecorder :=
              some (if options.format = "json" then ResultRecorder.json writer
                    else ResultRecorder.text writer) }
        resolveAndRun env name options deferred
          { config := config
            cableChannel := some options.channel
            trace := (chooseWriter env options).2 }
  | _ => ⟨.exit 1, { trace := [Event.help] }⟩

/-- The handler `Work` (lines 248-254). -/
def Work (env : Env) (options : Options) : Result :=
  let port := uint16 options.workerListenPort
  match env.serve options.workerListenAddr port with
  | some err =>
    ⟨.exit 1,
      { trace := [Event.newWorker options.workerListenAddr port, Event.serve (some err),
                  Event.fatal err] }⟩
  | none =>
    ⟨.returned, { trace := [Event.newWorker options.workerListenAddr port, Event.serve none] }⟩

/-! ## Observations on a trace -/

/-- The controller reported an error: `Run` of `benchmark.New` or of
`benchmark.NewConnect` returned a non-nil error. -/
def Event.isRunError : Event → Bool
  | .run _ (some _) => true
  | .connectRun _ (some _) => true
  | _ => false

/-- The controller returned without error. -/
def Event.isRunOk : Event → Bool
  | .run _ none => true
  | .connectRun _ none => true
  | _ => false

/-- A call of `config.ResultRecorder.Flush()`. -/
def Event.isFlush : Event → Bool
  | .flush _ _ => true
  | _ => false

/-- A call of `Flush` that returned a non-nil error. -/
def Event.isFlushError : Event → Bool
  | .flush _ (some _) => true
  | _ => false

/-- A call of `Flush` that returned nil. -/
def Event.isFlushOk : Event → Bool
  | .flush _ none => true
  | _ => false

/-- A call of `benchmark.NewRemoteClientPool` that returned a non-nil error. -/
def Event.isRemotePoolError : Event → Bool
  | .newRemoteClientPool _ (some _) => true
  | _ => false

/-- Construction of a client pool, local or remote (attempted or completed). -/
def Event.isPoolConstruction : Event → Bool
  | .newLocalClientPool _ => true
  | .newRemoteClientPool _ _ => true
  | _ => false

/-- The controller call an event stands for, if any: whether it is the connect
controller, the config it was built from, and the error `Run` returned. -/
def Event.controllerCall : Event → Option (Bool × Config × Option String)
  | .run c e => some (false, c, e)
  | .connectRun c e => some (true, c, e)
  | _ => none

/-- The controller calls of a trace, in order. -/
def controllerCalls (t : List Event) : List (Bool × Config × Option String) :=
  t.filterMap Event.controllerCall

/-- The three names under which `main` registers `Stress`. -/
def stressNames : List String := ["echo", "broadcast", "connect"]

/-- Lines 185-192 complete: standard output is chosen or the output file opens. -/
def writerOk (env : Env) (options : Options) : Bool :=
  match (chooseWriter env options).1 with
  | .ok _ => true
  | .error _ => false

/-- The target given by `url` and `origin` resolves: `websocket.NewConfig` and then
`parseRemoteAddr` on the location host return no error. -/
def resolves (env : Env) (url origin : String) : Bool :=
  match env.newConfig url origin with
  | .error _ => false
  | .ok wsconfig => (parseRemoteAddr env wsconfig.LocationHost).1.2.2.isNone

/-- Lines 202-215 complete: the target of the run resolves. -/
def targetResolves (env : Env) (url : String) (options : Options) : Bool :=
  resolves env url options.websocketOrigin

/-- Every `benchmark.NewRemoteClientPool(a)` for the addresses from list position `i` on
returns no error. -/
def remotePoolsOk (env : Env) : Nat → List String → Bool
  | _, [] => true
  | i, a :: rest =>
    match env.newRemoteClientPool i a with
    | .error _ => false
    | .ok _ => remotePoolsOk env (i + 1) rest

/-- The pools `benchmark.NewRemoteClientPool` returns for the addresses from list position
`i` on, up to the first error. -/
def remotePools (env : Env) : Nat → List String → List RemoteClientPool
  | _, [] => []
  | i, a :: rest =>
    match env.newRemoteClientPool i a with
    | .error _ => []
    | .ok rcp => rcp :: remotePools env (i + 1) rest

/-- Operating-system and resolver effects: the ones that are not calls into the
`benchmark` package. -/
def Event.isSetup : Event → Bool
  | .stat _ _ => true
  | .mkdirAll _ _ => true
  | .openFile _ _ => true
  | .closeFile _ => true
  | .lookupHost _ _ => true
  | _ => false

/-- Events that are neither a failure nor a call of a controller or of `Flush`: setup
events and successful pool constructions. -/
def Event.isQuiet : Event → Bool
  | .newLocalClientPool _ => true
  | .newRemoteClientPool _ none => true
  | e => e.isSetup

/-- The error `Run` returns for the controller chosen by the command name. -/
def callRun (env : Env) (name : String) (c : Config) : Option String :=
  if name = "connect" then env.connectRun c else env.run c

/-- The trace event of the controller chosen by the command name. -/
def runEvent (name : String) (c : Config) (err : Option String) : Event :=
  if name = "connect" then Event.connectRun c err else Event.run c err

/-- The effect of the deferred `cancel()`, if one is registered. -/
def deferredEvents : Option File → List Event
  | none => []
  | some file => [Event.closeFile file]

/-- The recorder `Stress` installs on a writer (lines 194-198). -/
def recorderFor (options : Options) (w : Writer) : ResultRecorder :=
  if options.format = "json" then ResultRecorder.json w else ResultRecorder.text w

/-- The config of line 158-161: only URL, origin and server type are set. -/
def baseConfig (url : String) (options : Options) : Config :=
  { WebsocketURL := url
    WebsocketOrigin := options.websocketOrigin
    ServerType := options.serverType }

/-- The config handed to the controller when setup completes: the plain settings `c`,
the recorder on writer `w`, the local pools for `options.localAddrs` and then the remote
pools for `options.workerAddrs`. -/
def readyConfig (env : Env) (c : Config) (options : Options) (w : Writer) : Config :=
  { c with
    ClientPools :=
      (parseTCPAddrs env options.localAddrs).map ClientPool.localPool ++
        (remotePools env 0 options.workerAddrs).map ClientPool.remotePool
    ResultRecorder := some (recorderFor options w) }

/-- The ways a run of `Stress` can end, as outcome, final config and trace. -/
inductive StressRun (env : Env) (name : String) (args : List String) (options : Options) :
    Outcome → Config → List Event → Prop where
  | badArgs (ha : args.length ≠ 1) : StressRun env name args options (.exit 1) {} [Event.help]
  | badName (u : String) (ha : args = [u]) (hn : name ∉ stressNames) :
    StressRun env name args options (.panic (.str "invalid command name")) (baseConfig u options) []
  | writerFailed (u : String) (c : Config) (msg : String) (tr : List Event)
    (ha : args = [u]) (hn : name ∈ stressNames) (hc : configure env name u options = .ok c)
    (hw : writerOk env options = false) (ht : ∀ e ∈ tr, e.isSetup = true) :
    StressRun env name args options (.panic (.error msg)) c tr
  | unresolved (u : String) (c : Config) (w : Writer) (d : Option File) (msg : String)
    (tr : List Event)
    (ha : args = [u]) (hn : name ∈ stressNames) (hc : configure env name u options = .ok c)
    (hw : (chooseWriter env options).1 = .ok (w, d))
    (hr : targetResolves env u options = false) (ht : ∀ e ∈ tr, e.isSetup = true) :
    StressRun env name args options (.panic (.error msg))
      { c with ResultRecorder := some (recorderFor options w) } tr
  | poolFailed (u : String) (c : Config) (w : Writer) (d : Option File) (pre : List Event)
    (a err : String) (pools : List ClientPool)
    (ha : args = [u]) (hn : name ∈ stressNames) (hc : configure env name u options = .ok c)
    (hw : (chooseWriter env options).1 = .ok (w, d))
    (hr : targetResolves env u options = true)
    (hp : remotePoolsOk env 0 options.workerAddrs = false)
    (hq : ∀ e ∈ pre, e.isQuiet = true) :
    StressRun env name args options (.exit 1)
      { c with ResultRecorder := some (recorderFor options w), ClientPools := pools }
      (pre ++ [Event.newRemoteClientPool a (some err), Event.fatal err])
  | runFailed (u : String) (c : Config) (w : Writer) (d : Option File) (pre : List Event)
    (err : String)
    (ha : args = [u]) (hn : name ∈ stressNames) (hc : configure env name u options = .ok c)
    (hw : (chooseWriter env options).1 = .ok (w, d))
    (hr : targetResolves env u options = true)
    (hp : remotePoolsOk env 0 options.workerAddrs = true)
    (hq : ∀ e ∈ pre, e.isQuiet = true)
    (hrun : callRun env name (readyConfig env c options w) = some err) :
    StressRun env name args options (.exit 1) (readyConfig env c options w)
      (pre ++ [runEvent name (readyConfig env c options w) (some err), Event.fatal err])
  | flushFailed (u : String) (c : Config) (w : Writer) (d : Option File) (pre : List Event)
    (err : String)
    (ha : args = [u]) (hn : name ∈ stressNames) (hc : configure env name u options = .ok c)
    (hw : (chooseWriter env options).1 = .ok (w, d))
    (hr : targetResolves env u options = true)
    (hp : remotePoolsOk env 0 options.workerAddrs = true)
    (hq : ∀ e ∈ pre, e.isQuiet = true)
    (hrun : callRun env name (readyConfig env c options w) = none)
    (hf : env.flush (recorderFor options w) = some err) :
    StressRun env name args options (.exit 1) (readyConfig env c options w)
      (pre ++ [runEvent name (readyConfig env c options w) none,
        Event.flush (recorderFor options w) (some err), Event.fatal err])
  | finished (u : String) (c : Config) (w : Writer) (d : Option File) (pre : List Event)
    (ha : args = [u]) (hn : name ∈ stressNames) (hc : configure env name u options = .ok c)
    (hw : (chooseWriter env options).1 = .ok (w, d))
    (hr : targetResolves env u options = true)
    (hp : remotePoolsOk env 0 options.workerAddrs = true)
    (hq : ∀ e ∈ pre, e.isQuiet = true)
    (hrun : callRun env name (readyConfig env c options w) = none)
    (hf : env.flush (recorderFor options w) = none) :
    StressRun env name args options .returned (readyConfig env c options w)
      (pre ++ ([runEvent name (readyConfig env c options w) none,
        Event.flush (recorderFor options w) none] ++ deferredEvents d))

/-! ## Sample environments -/

/-- An environment in which every external operation succeeds. -/
def sampleEnv : Env where
  ClientEchoCmd := 1
  ClientBroadcastCmd := 2
  float64OutOfRange := fun _ => -9223372036854775808
  filepathDir := fun _ => "out"
  stat := fun _ => none
  mkdirAll := fun _ => none
  openFile := fun name => .ok { name := name, fd := 3 }
  newConfig := fun _ _ => .ok { LocationScheme := "ws", LocationHost := "localhost:3000" }
  splitHostPort := fun _ => .ok ("localhost", "3000")
  lookupHost := fun _ => .ok ("127.0.0.1", [])
  parseIP := fun _ => [127, 0, 0, 1]
  newRemoteClientPool := fun i _ => .ok { handle := i }
  connectRun := fun _ => none
  run := fun _ => none
  flush := fun _ => none
  serve := fun _ _ => some "use of closed network connection"

/-- As `sampleEnv`, but the controller reports an error from `Run`. -/
def failingRunEnv : Env :=
  { sampleEnv with
    connectRun := fun _ => some "no clients connected"
    run := fun _ => some "no clients connected" }

/-- As `sampleEnv`, but the target URL is rejected by `websocket.NewConfig`. -/
def badTargetEnv : Env :=
  { sampleEnv with newConfig := fun _ _ => .error "invalid URL" }

/-! ## The loops and helper functions -/

theorem foldl_append_singleton {α β : Type} (f : α → β) (l : List α) (acc : List β) :
    l.foldl (fun acc s => acc ++ [f s]) acc = acc ++ l.map f := by
  induction l generalizing acc with
  | nil => simp
  | cons a l ih => simp [ih]

theorem parseTCPAddrs_eq (env : Env) (l : List String) :
    parseTCPAddrs env l =
      if l = [] then [none] else l.map (fun s => some { IP := env.parseIP s }) := by
  unfold parseTCPAddrs
  simp only [foldl_append_singleton, List.nil_append, List.length_map]
  cases l <;> simp

theorem addLocalPools_eq (l : List (Option TCPAddr)) (s : State) :
    addLocalPools l s =
      { s with
        config := { s.config with ClientPools := s.config.ClientPools ++ l.map ClientPool.localPool }
        trace := s.trace ++ l.map Event.newLocalClientPool } := by
  unfold addLocalPools
  induction l generalizing s with
  | nil => simp
  | cons a l ih => simp [ih]

theorem addRemotePools_ok (env : Env) (l : List String) (i : Nat)
    (h : remotePoolsOk env i l = true) (s : State) :
    addRemotePools env i l s =
      .ok { s with
        config := { s.config with
          ClientPools := s.config.ClientPools ++ (remotePools env i l).map ClientPool.remotePool }
        trace := s.trace ++ l.map (fun a => Event.newRemoteClientPool a none) } := by
  induction l generalizing i s with
  | nil => simp [addRemotePools, remotePools]
  | cons a l ih =>
    unfold remotePoolsOk at h
    unfold addRemotePools remotePools
    cases hp : env.newRemoteClientPool i a with
    | error e => simp [hp] at h
    | ok rcp =>
      simp only [hp] at h ⊢
      rw [ih _ h]
      simp

theorem addRemotePools_error (env : Env) (l : List String) (i : Nat)
    (h : remotePoolsOk env i l = false) :
    ∃ (k : Nat) (a err : String) (pools : List ClientPool), ∀ s : State,
      addRemotePools env i l s =
        .error { s with
          config := { s.config with ClientPools := s.config.ClientPools ++ pools }
          trace := s.trace ++ ((l.take k).map (fun a => Event.newRemoteClientPool a none) ++
            [Event.newRemoteClientPool a (some err), Event.fatal err]) } := by
  induction l generalizing i with
  | nil => simp [remotePoolsOk] at h
  | cons a l ih =>
    unfold remotePoolsOk at h
    cases hp : env.newRemoteClientPool i a with
    | error e =>
      refine ⟨0, a, e, [], fun s => ?_⟩
      unfold addRemotePools
      simp [hp]
    | ok rcp =>
      simp only [hp] at h
      obtain ⟨k, a', err, pools, hk⟩ := ih (i + 1) h
      refine ⟨k + 1, a', err, ClientPool.remotePool rcp :: pools, fun s => ?_⟩
      unfold addRemotePools
      simp only [hp]
      rw [hk]
      simp

theorem openFileWriter_setup (env : Env) (options : Options) :
    ∀ e ∈ (openFileWriter env options).2, e.isSetup = true := by
  unfold openFileWriter
  intro e
  rcases h1 : env.stat (env.filepathDir options.filename) with _ | e1 <;>
  rcases h2 : env.mkdirAll (env.filepathDir options.filename) with _ | e2 <;>
  rcases h3 : env.openFile options.filename with e3 | f <;>
  simp only [h1, h2, h3] <;> intro he <;> simp at he <;>
  rcases he with rfl | rfl | rfl <;> simp [Event.isSetup]

theorem chooseWriter_setup (env : Env) (options : Options) :
    ∀ e ∈ (chooseWriter env options).2, e.isSetup = true := by
  unfold chooseWriter
  intro e
  split
  · simp
  · have := openFileWriter_setup env options e
    rcases h : openFileWriter env options with ⟨_ | _, tr⟩ <;> simp [h] at this ⊢ <;> exact this

theorem parseRemoteAddr_setup (env : Env) (url : String) :
    ∀ e ∈ (parseRemoteAddr env url).2, e.isSetup = true := by
  unfold parseRemoteAddr
  intro e
  rcases h1 : env.splitHostPort url with e1 | ⟨host, port⟩
  · simp
  · rcases h2 : env.lookupHost host with e2 | ⟨ip, rest⟩
    · simp only [h2]; intro he; simp at he; subst he; rfl
    · rcases h3 : ParseUint port with e3 | n <;>
      simp only [h2, h3] <;> intro he <;> simp at he <;> subst he <;> rfl


theorem runDeferred_eq (d : Option File) (s : State) :
    runDeferred d s = { s with trace := s.trace ++ deferredEvents d } := by
  cases d <;> simp [runDeferred, deferredEvents]

theorem deferredEvents_setup (d : Option File) : ∀ e ∈ deferredEvents d, e.isSetup = true := by
  cases d <;> simp [deferredEvents, Event.isSetup]

theorem isQuiet_of_isSetup (e : Event) (h : e.isSetup = true) : e.isQuiet = true := by
  cases e <;> simp_all [Event.isSetup, Event.isQuiet]

/-- Lines 230-246 in closed form: the three ways the run phase ends. -/
theorem runBenchmark_eq (env : Env) (name : String) (d : Option File) (s : State)
    (r : ResultRecorder) (hr : s.config.ResultRecorder = some r) :
    runBenchmark env name d s =
      match callRun env name s.config with
      | some err =>
        ⟨.exit 1, { s with trace := s.trace ++ [runEvent name s.config (some err), Event.fatal err] }⟩
      | none =>
        match env.flush r with
        | some err =>
          ⟨.exit 1, { s with trace := s.trace ++
            [runEvent name s.config none, Event.flush r (some err), Event.fatal err] }⟩
        | none =>
          ⟨.returned, { s with trace := s.trace ++
            ([runEvent name s.config none, Event.flush r none] ++ deferredEvents d) }⟩ := by
  unfold runBenchmark callRun runEvent flushAndReturn
  by_cases hn : name = "connect"
  · simp only [hn, if_true]
    cases env.connectRun s.config
    · simp only [hr]
      cases env.flush r <;> simp [runDeferred_eq]
    · simp
  · simp only [hn, if_false]
    cases env.run s.config
    · simp only [hr]
      cases env.flush r <;> simp [runDeferred_eq]
    · simp

theorem resolveAndRun_unresolved (env : Env) (name : String) (options : Options)
    (d : Option File) (s : State)
    (h : resolves env s.config.WebsocketURL s.config.WebsocketOrigin = false) :
    ∃ (msg : String) (ext : List Event),
      (resolveAndRun env name options d s).outcome = .panic (.error msg) ∧
      (resolveAndRun env name options d s).state.config = s.config ∧
      (resolveAndRun env name options d s).state.trace = s.trace ++ ext ∧
      ∀ e ∈ ext, e.isSetup = true := by
  unfold resolves at h
  cases hc : env.newConfig s.config.WebsocketURL s.config.WebsocketOrigin with
  | error err =>
    refine ⟨"failed to generate WS config: " ++ err, deferredEvents d, ?_, ?_, ?_,
      deferredEvents_setup d⟩ <;>
    · unfold resolveAndRun
      simp only [hc, runDeferred_eq]
  | ok wc =>
    simp only [hc] at h
    have hs := parseRemoteAddr_setup env wc.LocationHost
    rcases hp : (parseRemoteAddr env wc.LocationHost).1 with ⟨a, host, _ | err⟩
    · simp [hp] at h
    · refine ⟨"failed to parse remote address: " ++ err,
        (parseRemoteAddr env wc.LocationHost).2 ++ deferredEvents d, ?_, ?_, ?_, ?_⟩
      · unfold resolveAndRun
        simp only [hc, hp]
      · unfold resolveAndRun
        simp only [hc, hp, runDeferred_eq]
      · unfold resolveAndRun
        simp only [hc, hp, runDeferred_eq, List.append_assoc]
      · intro e he
        rcases List.mem_append.1 he with he | he
        · exact hs e he
        · exact deferredEvents_setup d e he

theorem resolveAndRun_poolError (env : Env) (name : String) (options : Options)
    (d : Option File) (s : State)
    (h : resolves env s.config.WebsocketURL s.config.WebsocketOrigin = true)
    (hp : remotePoolsOk env 0 options.workerAddrs = false) :
    ∃ (pre : List Event) (a err : String) (pools : List ClientPool),
      (resolveAndRun env name options d s).outcome = .exit 1 ∧
      (resolveAndRun env name options d s).state.config =
        { s.config with ClientPools := s.config.ClientPools ++ pools } ∧
      (resolveAndRun env name options d s).state.trace =
        s.trace ++ pre ++ [Event.newRemoteClientPool a (some err), Event.fatal err] ∧
      ∀ e ∈ pre, e.isQuiet = true := by
  unfold resolves at h
  obtain ⟨k, a, err, pools, hk⟩ := addRemotePools_error env options.workerAddrs 0 hp
  cases hc : env.newConfig s.config.WebsocketURL s.config.WebsocketOrigin with
  | error err => simp [hc] at h
  | ok wc =>
    simp only [hc] at h
    have hs := parseRemoteAddr_setup env wc.LocationHost
    rcases hpr : (parseRemoteAddr env wc.LocationHost).1 with ⟨raddr, host, _ | err⟩
    · refine ⟨(parseRemoteAddr env wc.LocationHost).2 ++
          (parseTCPAddrs env options.localAddrs).map Event.newLocalClientPool ++
          (options.workerAddrs.take k).map (fun a => Event.newRemoteClientPool a none),
        a, err, (parseTCPAddrs env options.localAddrs).map ClientPool.localPool ++ pools,
        ?_, ?_, ?_, ?_⟩
      · unfold resolveAndRun
        simp only [hc, hpr, hk, addLocalPools_eq]
      · unfold resolveAndRun
        simp only [hc, hpr, hk, addLocalPools_eq, List.append_assoc]
      · unfold resolveAndRun
        simp only [hc, hpr, hk, addLocalPools_eq, List.append_assoc]
      · intro e he
        simp only [List.mem_append, List.mem_map] at he
        rcases he with (he | ⟨x, _, rfl⟩) | ⟨x, _, rfl⟩
        · exact isQuiet_of_isSetup e (hs e he)
        · rfl
        · rfl
    · simp [hpr] at h

theorem resolveAndRun_ok (env : Env) (name : String) (options : Options)
    (d : Option File) (s : State)
    (h : resolves env s.config.WebsocketURL s.config.WebsocketOrigin = true)
    (hp : remotePoolsOk env 0 options.workerAddrs = true) :
    ∃ (s1 : State) (pre : List Event),
      resolveAndRun env name options d s = runBenchmark env name d s1 ∧
      s1.config =
        { s.config with
          ClientPools := s.config.ClientPools ++
            ((parseTCPAddrs env options.localAddrs).map ClientPool.localPool ++
              (remotePools env 0 options.workerAddrs).map ClientPool.remotePool) } ∧
      s1.trace = s.trace ++ pre ∧
      ∀ e ∈ pre, e.isQuiet = true := by
  unfold resolves at h
  have hk := addRemotePools_ok env options.workerAddrs 0 hp
  cases hc : env.newConfig s.config.WebsocketURL s.config.WebsocketOrigin with
  | error err => simp [hc] at h
  | ok wc =>
    simp only [hc] at h
    have hs := parseRemoteAddr_setup env wc.LocationHost
    rcases hpr : (parseRemoteAddr env wc.LocationHost).1 with ⟨raddr, host, _ | err⟩
    · refine ⟨
        { config := { s.config with
            ClientPools := s.config.ClientPools ++
              ((parseTCPAddrs env options.localAddrs).map ClientPool.localPool ++
                (remotePools env 0 options.workerAddrs).map ClientPool.remotePool) }
          cableChannel := s.cableChannel
          remoteAddr :=
            { Config := some wc, Secure := some (decide (wc.LocationScheme = "wss")),
              Addr := raddr, Host := some host }
          trace := s.trace ++ ((parseRemoteAddr env wc.LocationHost).2 ++
            (parseTCPAddrs env options.localAddrs).map Event.newLocalClientPool ++
            options.workerAddrs.map (fun a => Event.newRemoteClientPool a none)) },
        (parseRemoteAddr env wc.LocationHost).2 ++
          (parseTCPAddrs env options.localAddrs).map Event.newLocalClientPool ++
          options.workerAddrs.map (fun a => Event.newRemoteClientPool a none),
        ?_, rfl, rfl, ?_⟩
      · unfold resolveAndRun
        simp only [hc, hpr, hk, addLocalPools_eq, List.append_assoc]
      · intro e he
        simp only [List.mem_append, List.mem_map] at he
        rcases he with (he | ⟨x, _, rfl⟩) | ⟨x, _, rfl⟩
        · exact isQuiet_of_isSetup e (hs e he)
        · rfl
        · rfl
    · simp [hpr] at h


theorem configure_error (env : Env) (name url : String) (options : Options)
    (hn : name ∉ stressNames) :
    configure env name url options = .error (baseConfig url options) := by
  simp only [stressNames, List.mem_cons, List.mem_singleton, List.not_mem_nil, or_false,
    not_or] at hn
  simp [configure, switchName, hn.1, hn.2.1, hn.2.2, baseConfig]

theorem configure_ok (env : Env) (name url : String) (options : Options)
    (hn : name ∈ stressNames) : ∃ c, configure env name url options = .ok c := by
  simp only [stressNames, List.mem_cons, List.mem_singleton, List.not_mem_nil, or_false] at hn
  rcases hn with rfl | rfl | rfl <;> simp [configure, switchName]

theorem chooseWriter_error (env : Env) (options : Options) (v : PanicValue)
    (h : (chooseWriter env options).1 = .error v) : ∃ msg, v = .error msg := by
  unfold chooseWriter openFileWriter at h
  split at h
  · simp at h
  · rcases h1 : env.stat (env.filepathDir options.filename) with _ | e1 <;>
    rcases h2 : env.mkdirAll (env.filepathDir options.filename) with _ | e2 <;>
    rcases h3 : env.openFile options.filename with e3 | f <;>
    simp [h1, h2, h3] at h <;> exact ⟨_, h.symm⟩

/-- Every run of `Stress` ends in one of the ways listed by `StressRun`. -/
theorem Stress_run (env : Env) (name : String) (args : List String) (options : Options) :
    StressRun env name args options (Stress env name args options).outcome
      (Stress env name args options).state.config (Stress env name args options).state.trace := by
  rcases args with _ | ⟨u, _ | ⟨v, rest⟩⟩
  · exact .badArgs (by simp)
  · by_cases hn : name ∈ stressNames
    · obtain ⟨c, hc⟩ := configure_ok env name u options hn
      rcases hw : (chooseWriter env options).1 with v | ⟨w, d⟩
      · obtain ⟨msg, rfl⟩ := chooseWriter_error env options v hw
        have : Stress env name [u] options =
            ⟨.panic (.error msg), { config := c, trace := (chooseWriter env options).2 }⟩ := by
          simp only [Stress, hc, hw]
        rw [this]
        exact .writerFailed u c msg _ rfl hn hc (by simp [writerOk, hw])
          (chooseWriter_setup env options)
      · have hS : Stress env name [u] options =
            resolveAndRun env name options d
              { config := { c with ResultRecorder := some (recorderFor options w) }
                cableChannel := some options.channel
                trace := (chooseWriter env options).2 } := by
          simp only [Stress, hc, hw, recorderFor]
        have hurl : c.WebsocketURL = u ∧ c.WebsocketOrigin = options.websocketOrigin ∧
            c.ClientPools = [] := by
          have hn2 := hn
          simp only [stressNames, List.mem_cons, List.mem_singleton, List.not_mem_nil,
            or_false] at hn2
          rcases hn2 with rfl | rfl | rfl <;> simp [configure, switchName] at hc <;>
            subst hc <;> simp
        obtain ⟨hu, ho, hpools⟩ := hurl
        rw [hS]
        by_cases hr : targetResolves env u options = true
        · by_cases hp : remotePoolsOk env 0 options.workerAddrs = true
          · obtain ⟨s1, pre, hrun, hcfg, htr, hq⟩ := resolveAndRun_ok env name options d
              { config := { c with ResultRecorder := some (recorderFor options w) }
                cableChannel := some options.channel
                trace := (chooseWriter env options).2 }
              (by simpa [targetResolves, hu, ho] using hr) hp
            have hcfg2 : s1.config = readyConfig env c options w := by
              rw [hcfg]; simp [readyConfig, hpools]
            have hq2 : ∀ e ∈ (chooseWriter env options).2 ++ pre, e.isQuiet = true := by
              intro e he
              rcases List.mem_append.1 he with he | he
              · exact isQuiet_of_isSetup e (chooseWriter_setup env options e he)
              · exact hq e he
            rw [hrun, runBenchmark_eq env name d s1 (recorderFor options w)
              (by rw [hcfg2]; rfl), hcfg2]
            simp only [] at htr
            rcases hcall : callRun env name (readyConfig env c options w) with _ | err
            · rcases hf : env.flush (recorderFor options w) with _ | err
              · simp only [htr, hcfg2, List.append_assoc]
                rw [← List.append_assoc]
                exact .finished u c w d _ rfl hn hc hw hr hp hq2 hcall hf
              · simp only [htr, hcfg2, List.append_assoc]
                rw [← List.append_assoc]
                exact .flushFailed u c w d _ err rfl hn hc hw hr hp hq2 hcall hf
            · simp only [htr, hcfg2, List.append_assoc]
              rw [← List.append_assoc]
              exact .runFailed u c w d _ err rfl hn hc hw hr hp hq2 hcall
          · simp only [Bool.not_eq_true] at hp
            obtain ⟨pre, a, err, pools, ho2, hcfg, htr, hq⟩ := resolveAndRun_poolError env name
              options d
              { config := { c with ResultRecorder := some (recorderFor options w) }
                cableChannel := some options.channel
                trace := (chooseWriter env options).2 }
              (by simpa [targetResolves, hu, ho] using hr) hp
            have hq2 : ∀ e ∈ (chooseWriter env options).2 ++ pre, e.isQuiet = true := by
              intro e he
              rcases List.mem_append.1 he with he | he
              · exact isQuiet_of_isSetup e (chooseWriter_setup env options e he)
              · exact hq e he
            rw [ho2, hcfg, htr]
            simp only [hpools, List.nil_append]
            exact .poolFailed u c w d _ a err pools rfl hn hc hw hr hp hq2
        · simp only [Bool.not_eq_true] at hr
          obtain ⟨msg, ext, ho2, hcfg, htr, hq⟩ := resolveAndRun_unresolved env name options d
            { config := { c with ResultRecorder := some (recorderFor options w) }
              cableChannel := some options.channel
              trace := (chooseWriter env options).2 }
            (by simpa [targetResolves, hu, ho] using hr)
          rw [ho2, hcfg, htr]
          refine .unresolved u c w d msg _ rfl hn hc hw hr ?_
          intro e he
          rcases List.mem_append.1 he with he | he
          · exact chooseWriter_setup env options e he
          · exact hq e he
    · rw [show Stress env name [u] options =
          ⟨.panic (.str "invalid command name"), { config := baseConfig u options }⟩ by
        simp only [Stress, configure_error env name u options hn]]
      exact .badName u rfl hn
  · exact .badArgs (by simp)


/-! ## Predicates on quiet and setup events -/

/-- A predicate that holds of no quiet event holds nowhere in a list of quiet events. -/
theorem any_of_quiet {p : Event → Bool} (hp : ∀ e, e.isQuiet = true → p e = false)
    {l : List Event} (hl : ∀ e ∈ l, e.isQuiet = true) : l.any p = false := by
  rw [List.any_eq_false]
  intro e he
  simp [hp e (hl e he)]

/-- A predicate that holds of no setup event holds nowhere in a list of setup events. -/
theorem any_of_setup {p : Event → Bool} (hp : ∀ e, e.isSetup = true → p e = false)
    {l : List Event} (hl : ∀ e ∈ l, e.isSetup = true) : l.any p = false := by
  rw [List.any_eq_false]
  intro e he
  simp [hp e (hl e he)]

theorem isRunError_quiet : ∀ e : Event, e.isQuiet = true → e.isRunError = false := by
  intro e; cases e <;> simp [Event.isQuiet, Event.isSetup, Event.isRunError]

theorem isFlush_quiet : ∀ e : Event, e.isQuiet = true → e.isFlush = false := by
  intro e; cases e <;> simp [Event.isQuiet, Event.isSetup, Event.isFlush]

theorem isFlushError_quiet : ∀ e : Event, e.isQuiet = true → e.isFlushError = false := by
  intro e; cases e <;> simp [Event.isQuiet, Event.isSetup, Event.isFlushError]

theorem isRemotePoolError_quiet :
    ∀ e : Event, e.isQuiet = true → e.isRemotePoolError = false := by
  intro e
  cases e with
  | newRemoteClientPool a err => cases err <;> simp [Event.isQuiet, Event.isSetup, Event.isRemotePoolError]
  | _ => simp [Event.isQuiet, Event.isSetup, Event.isRemotePoolError]

theorem isPoolConstruction_setup :
    ∀ e : Event, e.isSetup = true → e.isPoolConstruction = false := by
  intro e; cases e <;> simp [Event.isSetup, Event.isPoolConstruction]

theorem isQuiet_of_setup_list {l : List Event} (hl : ∀ e ∈ l, e.isSetup = true) :
    ∀ e ∈ l, e.isQuiet = true :=
  fun e he => isQuiet_of_isSetup e (hl e he)

theorem runEvent_isRunError (name : String) (c : Config) (err : Option String) :
    (runEvent name c err).isRunError = err.isSome := by
  unfold runEvent; split <;> cases err <;> rfl

theorem runEvent_isRunOk (name : String) (c : Config) (err : Option String) :
    (runEvent name c err).isRunOk = err.isNone := by
  unfold runEvent; split <;> cases err <;> rfl

theorem runEvent_isFlush (name : String) (c : Config) (err : Option String) :
    (runEvent name c err).isFlush = false := by
  unfold runEvent; split <;> rfl

theorem runEvent_isFlushError (name : String) (c : Config) (err : Option String) :
    (runEvent name c err).isFlushError = false := by
  unfold runEvent; split <;> rfl

theorem runEvent_isFlushOk (name : String) (c : Config) (err : Option String) :
    (runEvent name c err).isFlushOk = false := by
  unfold runEvent; split <;> rfl

theorem runEvent_isRemotePoolError (name : String) (c : Config) (err : Option String) :
    (runEvent name c err).isRemotePoolError = false := by
  unfold runEvent; split <;> rfl

theorem any_deferredEvents {p : Event → Bool} (hp : ∀ e, e.isQuiet = true → p e = false)
    (d : Option File) : (deferredEvents d).any p = false :=
  any_of_quiet hp (isQuiet_of_setup_list (deferredEvents_setup d))

/-- Every run of `Stress`, with the three observations named. -/
theorem Stress_run_cases (env : Env) (name : String) (args : List String) (options : Options) :
    ∃ (o : Outcome) (c : Config) (t : List Event),
      (Stress env name args options).outcome = o ∧
      (Stress env name args options).state.config = c ∧
      (Stress env name args options).state.trace = t ∧
      StressRun env name args options o c t :=
  ⟨_, _, _, rfl, rfl, rfl, Stress_run env name args options⟩

/-! ## The claims -/

/-- C1, as stated, fails: in the run of `echo` below the controller's `Run` returns an
error and `Flush` is never invoked. -/
theorem C1_flush_after_failed_run_counterexample :
    ¬ (∀ (env : Env) (name : String) (args : List String) (options : Options),
        (Stress env name args options).state.trace.any Event.isRunError = true →
        (Stress env name args options).state.trace.any Event.isFlush = true) := by
  intro h
  exact absurd (h failingRunEnv "echo" ["ws://localhost:3000/ws"] {} (by decide)) (by decide)

/-- C1, amended: in every run of `Stress` in which the controller's `Run` returns an
error, `ResultRecorder.Flush` is not invoked at all; the process leaves through
`log.Fatal` with exit status 1. -/
theorem C1_failed_run_skips_flush (env : Env) (name : String) (args : List String)
    (options : Options)
    (h : (Stress env name args options).state.trace.any Event.isRunError = true) :
    (Stress env name args options).state.trace.any Event.isFlush = false ∧
      (Stress env name args options).outcome = Outcome.exit 1 ∧
      (Stress env name args options).outcome.exitStatus = 1 := by
  obtain ⟨o, c, t, ho, hc, ht, hrun⟩ := Stress_run_cases env name args options
  rw [ht] at h
  rw [ho, ht]
  cases hrun with
  | badArgs ha => simp [Event.isRunError] at h
  | badName u ha hn => simp at h
  | writerFailed u c msg tr ha hn hc hw hs =>
    rw [any_of_quiet isRunError_quiet (isQuiet_of_setup_list hs)] at h
    simp at h
  | unresolved u c w d msg tr ha hn hc hw hr hs =>
    rw [any_of_quiet isRunError_quiet (isQuiet_of_setup_list hs)] at h
    simp at h
  | poolFailed u c w d pre a err pools ha hn hc hw hr hp hq =>
    simp [List.any_append, any_of_quiet isRunError_quiet hq, Event.isRunError] at h
  | runFailed u c w d pre err ha hn hc hw hr hp hq hcall =>
    simp only [List.any_append, List.any_cons, List.any_nil, any_of_quiet isFlush_quiet hq,
      runEvent_isFlush]
    simp [Event.isFlush, Outcome.exitStatus]
  | flushFailed u c w d pre err ha hn hc hw hr hp hq hcall hf =>
    simp only [List.any_append, List.any_cons, List.any_nil, any_of_quiet isRunError_quiet hq,
      runEvent_isRunError] at h
    simp [Event.isRunError] at h
  | finished u c w d pre ha hn hc hw hr hp hq hcall hf =>
    simp only [List.any_append, List.any_cons, List.any_nil, any_of_quiet isRunError_quiet hq,
      runEvent_isRunError, any_deferredEvents isRunError_quiet] at h
    simp [Event.isRunError] at h

/-- Witness of `C1_failed_run_skips_flush`: the `echo` run whose `Run` fails. -/
theorem C1_failed_run_skips_flush_witness :
    (Stress failingRunEnv "echo" ["ws://localhost:3000/ws"] {}).state.trace.any
        Event.isRunError = true ∧
      ((Stress failingRunEnv "echo" ["ws://localhost:3000/ws"] {}).state.trace.any
          Event.isFlush = false ∧
        (Stress failingRunEnv "echo" ["ws://localhost:3000/ws"] {}).outcome = Outcome.exit 1 ∧
        (Stress failingRunEnv "echo" ["ws://localhost:3000/ws"] {}).outcome.exitStatus = 1) :=
  ⟨by decide,
    C1_failed_run_skips_flush failingRunEnv "echo" ["ws://localhost:3000/ws"] {} (by decide)⟩

/-- C2: `Stress` ends with exit status 0 only if it got exactly one argument, every
`NewRemoteClientPool` returned no error, the controller's `Run` was called and returned no
error and `Flush` was called and returned no error; and whenever the argument count is not
1 or one of `NewRemoteClientPool`, `Run`, `Flush` returns an error, the exit status is
not 0. -/
theorem C2_exit_status (env : Env) (name : String) (args : List String) (options : Options) :
    ((Stress env name args options).outcome.exitStatus = 0 →
      args.length = 1 ∧ remotePoolsOk env 0 options.workerAddrs = true ∧
      (Stress env name args options).state.trace.any Event.isRemotePoolError = false ∧
      (Stress env name args options).state.trace.any Event.isRunOk = true ∧
      (Stress env name args options).state.trace.any Event.isRunError = false ∧
      (Stress env name args options).state.trace.any Event.isFlushOk = true ∧
      (Stress env name args options).state.trace.any Event.isFlushError = false) ∧
    ((args.length ≠ 1 ∨
        (Stress env name args options).state.trace.any Event.isRemotePoolError = true ∨
        (Stress env name args options).state.trace.any Event.isRunError = true ∨
        (Stress env name args options).state.trace.any Event.isFlushError = true) →
      (Stress env name args options).outcome.exitStatus ≠ 0) := by
  have key : (Stress env name args options).outcome.exitStatus = 0 →
      args.length = 1 ∧ remotePoolsOk env 0 options.workerAddrs = true ∧
      (Stress env name args options).state.trace.any Event.isRemotePoolError = false ∧
      (Stress env name args options).state.trace.any Event.isRunOk = true ∧
      (Stress env name args options).state.trace.any Event.isRunError = false ∧
      (Stress env name args options).state.trace.any Event.isFlushOk = true ∧
      (Stress env name args options).state.trace.any Event.isFlushError = false := by
    obtain ⟨o, c, t, ho, hc, ht, hrun⟩ := Stress_run_cases env name args options
    rw [ho, ht]
    intro h0
    cases hrun with
    | badArgs ha => simp [Outcome.exitStatus] at h0
    | badName u ha hn => simp [Outcome.exitStatus] at h0
    | writerFailed u c msg tr ha hn hc hw hs => simp [Outcome.exitStatus] at h0
    | unresolved u c w d msg tr ha hn hc hw hr hs => simp [Outcome.exitStatus] at h0
    | poolFailed u c w d pre a err pools ha hn hc hw hr hp hq =>
      simp [Outcome.exitStatus] at h0
    | runFailed u c w d pre err ha hn hc hw hr hp hq hcall => simp [Outcome.exitStatus] at h0
    | flushFailed u c w d pre err ha hn hc hw hr hp hq hcall hf =>
      simp [Outcome.exitStatus] at h0
    | finished u c w d pre ha hn hc hw hr hp hq hcall hf =>
      refine ⟨by simp [ha], hp, ?_, ?_, ?_, ?_, ?_⟩
      · simp only [List.any_append, List.any_cons, List.any_nil,
          any_of_quiet isRemotePoolError_quiet hq, runEvent_isRemotePoolError,
          any_deferredEvents isRemotePoolError_quiet]
        simp [Event.isRemotePoolError]
      · simp only [List.any_append, List.any_cons, List.any_nil, runEvent_isRunOk]
        simp
      · simp only [List.any_append, List.any_cons, List.any_nil,
          any_of_quiet isRunError_quiet hq, runEvent_isRunError,
          any_deferredEvents isRunError_quiet]
        simp [Event.isRunError]
      · simp only [List.any_append, List.any_cons, List.any_nil, runEvent_isFlushOk]
        simp [Event.isFlushOk]
      · simp only [List.any_append, List.any_cons, List.any_nil,
          any_of_quiet isFlushError_quiet hq, runEvent_isFlushError,
          any_deferredEvents isFlushError_quiet]
        simp [Event.isFlushError]
  refine ⟨key, ?_⟩
  intro h h0
  obtain ⟨h1, _, h2, _, h3, _, h4⟩ := key h0
  rcases h with h | h | h | h
  · exact h h1
  · rw [h2] at h; exact Bool.false_ne_true h
  · rw [h3] at h; exact Bool.false_ne_true h
  · rw [h4] at h; exact Bool.false_ne_true h

/-- Witness of `C2_exit_status`: a run that ends with status 0 and meets every condition,
and a run whose `Run` fails and ends with a non-zero status. -/
theorem C2_exit_status_witness :
    ((Stress sampleEnv "broadcast" ["ws://localhost:3000/ws"]
          { workerAddrs := ["10.0.0.2:3000"] }).outcome.exitStatus = 0 ∧
      (Stress sampleEnv "broadcast" ["ws://localhost:3000/ws"]
          { workerAddrs := ["10.0.0.2:3000"] }).state.trace.any Event.isFlushOk = true) ∧
    (Stress failingRunEnv "echo" ["ws://localhost:3000/ws"] {}).outcome.exitStatus ≠ 0 :=
  ⟨⟨by decide,
      ((C2_exit_status sampleEnv "broadcast" ["ws://localhost:3000/ws"]
        { workerAddrs := ["10.0.0.2:3000"] }).1 (by decide)).2.2.2.2.2.1⟩,
    (C2_exit_status failingRunEnv "echo" ["ws://localhost:3000/ws"] {}).2
      (Or.inr (Or.inr (Or.inl (by decide))))⟩

/-- C3: when the target cannot be resolved (`websocket.NewConfig` fails on the URL and
origin, or `parseRemoteAddr` fails on the host of the location), the run is aborted at
startup by a panic: no local or remote client pool is constructed, no controller is run and
`Flush` is not called. -/
theorem C3_unresolved_target_aborts (env : Env) (name u : String) (options : Options)
    (h : (∃ err, env.newConfig u options.websocketOrigin = .error err) ∨
      (∃ wsconfig err, env.newConfig u options.websocketOrigin = .ok wsconfig ∧
        (parseRemoteAddr env wsconfig.LocationHost).1.2.2 = some err)) :
    (Stress env name [u] options).state.trace.any Event.isPoolConstruction = false ∧
      controllerCalls (Stress env name [u] options).state.trace = [] ∧
      (Stress env name [u] options).state.trace.any Event.isFlush = false ∧
      (∃ v, (Stress env name [u] options).outcome = Outcome.panic v) ∧
      (Stress env name [u] options).outcome.exitStatus ≠ 0 := by
  have hres : targetResolves env u options = false := by
    unfold targetResolves resolves
    rcases h with ⟨err, h⟩ | ⟨wc, err, h, h2⟩
    · simp [h]
    · simp [h, h2]
  obtain ⟨o, c, t, ho, hc, ht, hrun⟩ := Stress_run_cases env name [u] options
  rw [ho, ht]
  have setupCase : ∀ (tr : List Event) (v : PanicValue), (∀ e ∈ tr, e.isSetup = true) →
      tr.any Event.isPoolConstruction = false ∧ controllerCalls tr = [] ∧
      tr.any Event.isFlush = false ∧
      (∃ v', Outcome.panic v = Outcome.panic v') ∧ (Outcome.panic v).exitStatus ≠ 0 := by
    intro tr v hs
    refine ⟨any_of_setup isPoolConstruction_setup hs, ?_,
      any_of_quiet isFlush_quiet (isQuiet_of_setup_list hs), ⟨v, rfl⟩, by simp [Outcome.exitStatus]⟩
    unfold controllerCalls
    rw [List.filterMap_eq_nil_iff]
    intro e he
    have := hs e he
    cases e <;> simp_all [Event.isSetup, Event.controllerCall]
  cases hrun with
  | badArgs ha => simp at ha
  | badName u ha hn => exact setupCase [] _ (by simp)
  | writerFailed u c msg tr ha hn hc hw hs => exact setupCase _ _ hs
  | unresolved u c w d msg tr ha hn hc hw hr hs => exact setupCase _ _ hs
  | poolFailed u' c w d pre a err pools ha hn hc hw hr hp hq =>
    cases ha; rw [hres] at hr; exact absurd hr (by simp)
  | runFailed u' c w d pre err ha hn hc hw hr hp hq hcall =>
    cases ha; rw [hres] at hr; exact absurd hr (by simp)
  | flushFailed u' c w d pre err ha hn hc hw hr hp hq hcall hf =>
    cases ha; rw [hres] at hr; exact absurd hr (by simp)
  | finished u' c w d pre ha hn hc hw hr hp hq hcall hf =>
    cases ha; rw [hres] at hr; exact absurd hr (by simp)

/-- Witness of `C3_unresolved_target_aborts`: a URL that `websocket.NewConfig` rejects. -/
theorem C3_unresolved_target_aborts_witness :
    ((∃ err, badTargetEnv.newConfig "localhost" ({} : Options).websocketOrigin = .error err) ∨
      (∃ wsconfig err,
        badTargetEnv.newConfig "localhost" ({} : Options).websocketOrigin = .ok wsconfig ∧
        (parseRemoteAddr badTargetEnv wsconfig.LocationHost).1.2.2 = some err)) ∧
    ((Stress badTargetEnv "echo" ["localhost"] {}).state.trace.any
        Event.isPoolConstruction = false ∧
      controllerCalls (Stress badTargetEnv "echo" ["localhost"] {}).state.trace = [] ∧
      (Stress badTargetEnv "echo" ["localhost"] {}).state.trace.any Event.isFlush = false ∧
      (∃ v, (Stress badTargetEnv "echo" ["localhost"] {}).outcome = Outcome.panic v) ∧
      (Stress badTargetEnv "echo" ["localhost"] {}).outcome.exitStatus ≠ 0) :=
  ⟨Or.inl ⟨"invalid URL", rfl⟩,
    C3_unresolved_target_aborts badTargetEnv "echo" "localhost" {}
      (Or.inl ⟨"invalid URL", rfl⟩)⟩

/-! ## The config built by `Stress` -/

/-- The value of `ClientCmd` after the `switch` on a registered command name. -/
theorem configure_eq (env : Env) (name url : String) (options : Options) (c : Config)
    (hc : configure env name url options = .ok c) :
    c =
      { WebsocketURL := url
        WebsocketOrigin := options.websocketOrigin
        ServerType := options.serverType
        ClientCmd :=
          if name = "echo" then env.ClientEchoCmd
          else if name = "broadcast" then env.ClientBroadcastCmd else 0
        PayloadPaddingSize := options.payloadPaddingSize
        StepSize := options.stepSize
        Concurrent := options.concurrent
        ConcurrentConnect := options.concurrentConnect
        SampleSize := options.sampleSize
        InitialClients := options.initialClients
        LimitPercentile := options.limitPercentile
        LimitRTT := options.limitRTT
        TotalSteps := options.totalSteps
        Interactive := options.interactive
        StepDelay := mulSecond options.stepsDelay
        CommandDelay := mulSecond (durationOfFloat64 env.float64OutOfRange options.commandDelay)
        CommandDelayChance := options.commandDelayChance } := by
  unfold configure switchName at hc
  by_cases h1 : name = "echo"
  · simp [h1] at hc; simp [h1, ← hc]
  · by_cases h2 : name = "broadcast"
    · simp [h1, h2] at hc; simp [h2, ← hc]
    · by_cases h3 : name = "connect"
      · simp [h3] at hc; simp [h3, ← hc]
      · simp [h1, h2, h3] at hc

/-- After the `switch`, `Stress` changes only `ClientPools` and `ResultRecorder`: under a
registered name the final config carries the settings of `configure`. -/
theorem Stress_settings (env : Env) (name u : String) (options : Options)
    (hn : name ∈ stressNames) :
    ∃ c, configure env name u options = .ok c ∧
      (Stress env name [u] options).state.config =
        { c with
          ClientPools := (Stress env name [u] options).state.config.ClientPools
          ResultRecorder := (Stress env name [u] options).state.config.ResultRecorder } := by
  obtain ⟨o, c, t, ho, hc, ht, hrun⟩ := Stress_run_cases env name [u] options
  rw [hc]
  cases hrun with
  | badArgs ha => simp at ha
  | badName u ha hn2 => exact absurd hn hn2
  | writerFailed u' c msg tr ha hn hc hw hs => cases ha; exact ⟨_, hc, rfl⟩
  | unresolved u' c w d msg tr ha hn hc hw hr hs => cases ha; exact ⟨_, hc, rfl⟩
  | poolFailed u' c w d pre a err pools ha hn hc hw hr hp hq => cases ha; exact ⟨_, hc, rfl⟩
  | runFailed u' c w d pre err ha hn hc hw hr hp hq hcall => cases ha; exact ⟨_, hc, rfl⟩
  | flushFailed u' c w d pre err ha hn hc hw hr hp hq hcall hf => cases ha; exact ⟨_, hc, rfl⟩
  | finished u' c w d pre ha hn hc hw hr hp hq hcall hf => cases ha; exact ⟨_, hc, rfl⟩

/-- The settings of the final config, field by field. -/
theorem Stress_config_fields (env : Env) (name u : String) (options : Options)
    (hn : name ∈ stressNames) :
    (Stress env name [u] options).state.config.WebsocketURL = u ∧
    (Stress env name [u] options).state.config.WebsocketOrigin = options.websocketOrigin ∧
    (Stress env name [u] options).state.config.ServerType = options.serverType ∧
    (Stress env name [u] options).state.config.ClientCmd =
      (if name = "echo" then env.ClientEchoCmd
       else if name = "broadcast" then env.ClientBroadcastCmd else 0) ∧
    (Stress env name [u] options).state.config.PayloadPaddingSize = options.payloadPaddingSize ∧
    (Stress env name [u] options).state.config.StepSize = options.stepSize ∧
    (Stress env name [u] options).state.config.Concurrent = options.concurrent ∧
    (Stress env name [u] options).state.config.ConcurrentConnect = options.concurrentConnect ∧
    (Stress env name [u] options).state.config.SampleSize = options.sampleSize ∧
    (Stress env name [u] options).state.config.InitialClients = options.initialClients ∧
    (Stress env name [u] options).state.config.LimitPercentile = options.limitPercentile ∧
    (Stress env name [u] options).state.config.LimitRTT = options.limitRTT ∧
    (Stress env name [u] options).state.config.TotalSteps = options.totalSteps ∧
    (Stress env name [u] options).state.config.Interactive = options.interactive ∧
    (Stress env name [u] options).state.config.StepDelay = mulSecond options.stepsDelay ∧
    (Stress env name [u] options).state.config.CommandDelay =
      mulSecond (durationOfFloat64 env.float64OutOfRange options.commandDelay) ∧
    (Stress env name [u] options).state.config.CommandDelayChance =
      options.commandDelayChance := by
  obtain ⟨c, hc, heq⟩ := Stress_settings env name u options hn
  have hc2 := configure_eq env name u options c hc
  rw [heq]
  subst hc2
  simp

/-- An integer inside the `int64` range is left unchanged by the wrap-around. -/
theorem wrapInt64_of_range (z : Int) (hlo : -9223372036854775808 ≤ z)
    (hhi : z ≤ 9223372036854775807) : wrapInt64 z = z := by
  unfold wrapInt64
  rw [Int.emod_eq_of_lt (by omega) (by omega)]
  omega

/-- Truncation toward zero of a value in `[0, 1)` is `0`. -/
theorem truncate_eq_zero (f : ℚ) (h0 : 0 ≤ f) (h1 : f < 1) : truncate f = 0 := by
  unfold truncate
  have hnum : 0 ≤ f.num := Rat.num_nonneg.2 h0
  have hlt : f.num < (f.den : Int) := Rat.lt_one_iff_num_lt_denom.1 h1
  exact Int.tdiv_eq_zero_of_lt hnum hlt

/-- A `--command-delay` in `[0, 1)` seconds becomes a `CommandDelay` of zero. -/
theorem commandDelay_below_one (env : Env) (name u : String) (options : Options)
    (hn : name ∈ stressNames) (h0 : 0 ≤ options.commandDelay) (h1 : options.commandDelay < 1) :
    (Stress env name [u] options).state.config.CommandDelay = 0 := by
  have h := (Stress_config_fields env name u options hn).2.2.2.2.2.2.2.2.2.2.2.2.2.2.2.1
  rw [h]
  simp [durationOfFloat64, truncate_eq_zero _ h0 h1, mulSecond, wrapInt64]

/-- C4 fails on the code: with `--command-delay 0.5` the command `echo` sets
`CommandDelay` to 0 nanoseconds, where 0.5 seconds are 500000000 nanoseconds; line 182
converts the float to `time.Duration` before it multiplies by `time.Second`. -/
theorem C4_half_second_delay_is_dropped (env : Env) (u : String) :
    (Stress env "echo" [u] { commandDelay := 1 / 2 }).state.config.CommandDelay = 0 ∧
      ((1 / 2 : ℚ) * 1000000000 = 500000000) := by
  refine ⟨commandDelay_below_one env "echo" u _ (by decide) ?_ ?_, by norm_num⟩
  · show (0 : ℚ) ≤ 1 / 2
    norm_num
  · show (1 / 2 : ℚ) < 1
    norm_num

/-- C5, as stated, fails: for `--steps-delay 9223372037` the product with `time.Second`
overflows `int64` and `StepDelay` is negative. -/
theorem C5_step_delay_overflow_counterexample :
    ¬ (∀ (env : Env) (name u : String) (options : Options), name ∈ stressNames →
        -9223372036854775808 ≤ options.stepsDelay → options.stepsDelay ≤ 9223372036854775807 →
        (Stress env name [u] options).state.config.StepDelay =
          options.stepsDelay * 1000000000) := by
  intro h
  exact absurd (h sampleEnv "echo" "ws://localhost:3000/ws" { stepsDelay := 9223372037 }
    (by decide) (by decide) (by decide)) (by decide)

/-- C5, amended: under each of the three command names `Stress` copies the options into
the config unchanged, and `StepDelay` is `stepsDelay` seconds in nanoseconds reduced to
`int64`, which is `stepsDelay * 10^9` whenever `|stepsDelay| ≤ 9223372036`. -/
theorem C5_options_copied (env : Env) (name u : String) (options : Options)
    (hn : name ∈ stressNames) :
    (Stress env name [u] options).state.config.WebsocketURL = u ∧
    (Stress env name [u] options).state.config.WebsocketOrigin = options.websocketOrigin ∧
    (Stress env name [u] options).state.config.ServerType = options.serverType ∧
    (Stress env name [u] options).state.config.PayloadPaddingSize = options.payloadPaddingSize ∧
    (Stress env name [u] options).state.config.StepSize = options.stepSize ∧
    (Stress env name [u] options).state.config.Concurrent = options.concurrent ∧
    (Stress env name [u] options).state.config.ConcurrentConnect = options.concurrentConnect ∧
    (Stress env name [u] options).state.config.SampleSize = options.sampleSize ∧
    (Stress env name [u] options).state.config.InitialClients = options.initialClients ∧
    (Stress env name [u] options).state.config.LimitPercentile = options.limitPercentile ∧
    (Stress env name [u] options).state.config.LimitRTT = options.limitRTT ∧
    (Stress env name [u] options).state.config.TotalSteps = options.totalSteps ∧
    (Stress env name [u] options).state.config.Interactive = options.interactive ∧
    (Stress env name [u] options).state.config.CommandDelayChance =
      options.commandDelayChance ∧
    (Stress env name [u] options).state.config.StepDelay =
      wrapInt64 (options.stepsDelay * 1000000000) ∧
    (-9223372036 ≤ options.stepsDelay → options.stepsDelay ≤ 9223372036 →
      (Stress env name [u] options).state.config.StepDelay =
        options.stepsDelay * 1000000000) := by
  obtain ⟨h1, h2, h3, _, h5, h6, h7, h8, h9, h10, h11, h12, h13, h14, h15, _, h17⟩ :=
    Stress_config_fields env name u options hn
  refine ⟨h1, h2, h3, h5, h6, h7, h8, h9, h10, h11, h12, h13, h14, h17, ?_, ?_⟩
  · rw [h15]; rfl
  · intro hlo hhi
    rw [h15]
    unfold mulSecond Second
    exact wrapInt64_of_range _ (by omega) (by omega)

/-- Witness of `C5_options_copied`: `broadcast` with a step delay of 3 seconds. -/
theorem C5_options_copied_witness :
    "broadcast" ∈ stressNames ∧
      (Stress sampleEnv "broadcast" ["ws://localhost:3000/ws"]
        { stepsDelay := 3, sampleSize := 20 }).state.config.StepDelay = 3000000000 ∧
      (Stress sampleEnv "broadcast" ["ws://localhost:3000/ws"]
        { stepsDelay := 3, sampleSize := 20 }).state.config.SampleSize = 20 :=
  ⟨by decide,
    (C5_options_copied sampleEnv "broadcast" "ws://localhost:3000/ws"
      { stepsDelay := 3, sampleSize := 20 } (by decide)).2.2.2.2.2.2.2.2.2.2.2.2.2.2.2
      (by decide) (by decide),
    (C5_options_copied sampleEnv "broadcast" "ws://localhost:3000/ws"
      { stepsDelay := 3, sampleSize := 20 } (by decide)).2.2.2.2.2.2.2.1⟩

/-! ## The writer and the recorder -/

/-- The file `openFileWriter` returns is the one `os.OpenFile` gave for the file name. -/
theorem openFileWriter_ok (env : Env) (options : Options) (file : File)
    (h : (openFileWriter env options).1 = .ok file) :
    env.openFile options.filename = .ok file := by
  unfold openFileWriter at h
  rcases h1 : env.stat (env.filepathDir options.filename) with _ | e1 <;>
  rcases h2 : env.mkdirAll (env.filepathDir options.filename) with _ | e2 <;>
  rcases h3 : env.openFile options.filename with e3 | f <;>
  simp [h1, h2, h3] at h <;> rw [h]

/-- The two ways lines 185-192 complete. -/
theorem chooseWriter_ok (env : Env) (options : Options) (w : Writer) (d : Option File)
    (h : (chooseWriter env options).1 = .ok (w, d)) :
    (options.filename = "" ∧ w = Writer.stdout ∧ d = none) ∨
      (options.filename ≠ "" ∧ ∃ file, (openFileWriter env options).1 = .ok file ∧
        w = Writer.file file ∧ d = some file) := by
  unfold chooseWriter at h
  by_cases hf : options.filename = ""
  · simp [hf] at h
    exact Or.inl ⟨hf, h.1.symm, h.2.symm⟩
  · simp only [hf, if_false] at h
    rcases ho : openFileWriter env options with ⟨v | file, tr⟩
    · simp [ho] at h
    · simp [ho] at h
      exact Or.inr ⟨hf, file, rfl, h.1.symm, h.2.symm⟩

/-- C6: under each of the three command names, whenever the writer of lines 185-192 is
obtained, the recorder `Stress` installs is the JSON recorder exactly when the format is
"json" and the text recorder for every other format; its sink is standard output exactly
when the file name is empty, and otherwise the file `openFileWriter` opened under that
name. When `openFileWriter` panics no recorder is installed. -/
theorem C6_recorder_choice (env : Env) (name u : String) (options : Options)
    (hn : name ∈ stressNames) :
    (writerOk env options = true →
      ∃ r, (Stress env name [u] options).state.config.ResultRecorder = some r ∧
        (r.isJSON = true ↔ options.format = "json") ∧
        (options.format = "json" → r = ResultRecorder.json r.sink) ∧
        (options.format ≠ "json" → r = ResultRecorder.text r.sink) ∧
        (r.sink = Writer.stdout ↔ options.filename = "") ∧
        (options.filename ≠ "" →
          ∃ file, (openFileWriter env options).1 = .ok file ∧
            env.openFile options.filename = .ok file ∧ r.sink = Writer.file file)) ∧
    (writerOk env options = false →
      options.filename ≠ "" ∧
      (Stress env name [u] options).state.config.ResultRecorder = none ∧
      ∃ msg, (Stress env name [u] options).outcome = Outcome.panic (PanicValue.error msg)) := by
  have recorderFacts : ∀ (w : Writer) (d : Option File),
      (chooseWriter env options).1 = .ok (w, d) →
      ((recorderFor options w).isJSON = true ↔ options.format = "json") ∧
      (options.format = "json" →
        recorderFor options w = ResultRecorder.json (recorderFor options w).sink) ∧
      (options.format ≠ "json" →
        recorderFor options w = ResultRecorder.text (recorderFor options w).sink) ∧
      ((recorderFor options w).sink = Writer.stdout ↔ options.filename = "") ∧
      (options.filename ≠ "" →
        ∃ file, (openFileWriter env options).1 = .ok file ∧
          env.openFile options.filename = .ok file ∧
          (recorderFor options w).sink = Writer.file file) := by
    intro w d hw
    have hsink : (recorderFor options w).sink = w := by
      unfold recorderFor; split <;> rfl
    rw [hsink]
    refine ⟨?_, ?_, ?_, ?_, ?_⟩
    · unfold recorderFor; split <;> simp [ResultRecorder.isJSON, *]
    · intro hf; simp [recorderFor, hf]
    · intro hf; simp [recorderFor, hf]
    · rcases chooseWriter_ok env options w d hw with ⟨hf, rfl, _⟩ | ⟨hf, file, _, rfl, _⟩
      · simp [hf]
      · simp [hf]
    · intro hf
      rcases chooseWriter_ok env options w d hw with ⟨hf2, _, _⟩ | ⟨_, file, ho, rfl, _⟩
      · exact absurd hf2 hf
      · exact ⟨file, ho, openFileWriter_ok env options file ho, rfl⟩
  obtain ⟨o, c, t, ho, hc, ht, hrun⟩ := Stress_run_cases env name [u] options
  rw [ho, hc]
  cases hrun with
  | badArgs ha => simp at ha
  | badName u ha hn2 => exact absurd hn hn2
  | writerFailed u' c msg tr ha hn hc hw hs =>
    cases ha
    refine ⟨fun h => ?_, fun _ => ⟨?_, ?_, msg, rfl⟩⟩
    · rw [hw] at h; exact absurd h (by simp)
    · intro hf
      simp [writerOk, chooseWriter, hf] at hw
    · rw [configure_eq env name u options c hc]
  | unresolved u' c w d msg tr ha hn hc hw hr hs =>
    refine ⟨fun _ => ⟨_, rfl, recorderFacts w d hw⟩, fun h => ?_⟩
    simp [writerOk, hw] at h
  | poolFailed u' c w d pre a err pools ha hn hc hw hr hp hq =>
    refine ⟨fun _ => ⟨_, rfl, recorderFacts w d hw⟩, fun h => ?_⟩
    simp [writerOk, hw] at h
  | runFailed u' c w d pre err ha hn hc hw hr hp hq hcall =>
    refine ⟨fun _ => ⟨_, rfl, recorderFacts w d hw⟩, fun h => ?_⟩
    simp [writerOk, hw] at h
  | flushFailed u' c w d pre err ha hn hc hw hr hp hq hcall hf =>
    refine ⟨fun _ => ⟨_, rfl, recorderFacts w d hw⟩, fun h => ?_⟩
    simp [writerOk, hw] at h
  | finished u' c w d pre ha hn hc hw hr hp hq hcall hf =>
    refine ⟨fun _ => ⟨_, rfl, recorderFacts w d hw⟩, fun h => ?_⟩
    simp [writerOk, hw] at h

/-- Witness of `C6_recorder_choice`: `echo --format json --filename out/result.json`
installs the JSON recorder on the opened file. -/
theorem C6_recorder_choice_witness :
    "echo" ∈ stressNames ∧
      writerOk sampleEnv { format := "json", filename := "out/result.json" } = true ∧
      ∃ r, (Stress sampleEnv "echo" ["ws://localhost:3000/ws"]
          { format := "json", filename := "out/result.json" }).state.config.ResultRecorder =
            some r ∧
        (r.isJSON = true ↔ "json" = "json") :=
  ⟨by decide, by decide,
    ((C6_recorder_choice sampleEnv "echo" "ws://localhost:3000/ws"
      { format := "json", filename := "out/result.json" } (by decide)).1 (by decide)).imp
      (fun _ h => ⟨h.1, h.2.1⟩)⟩

/-! ## The controller that is run -/

theorem controllerCalls_append (l₁ l₂ : List Event) :
    controllerCalls (l₁ ++ l₂) = controllerCalls l₁ ++ controllerCalls l₂ := by
  simp [controllerCalls, List.filterMap_append]

theorem controllerCalls_quiet {l : List Event} (hl : ∀ e ∈ l, e.isQuiet = true) :
    controllerCalls l = [] := by
  unfold controllerCalls
  rw [List.filterMap_eq_nil_iff]
  intro e he
  have := hl e he
  cases e <;> simp_all [Event.isQuiet, Event.isSetup, Event.controllerCall]

theorem runEvent_controllerCall (name : String) (c : Config) (err : Option String) :
    (runEvent name c err).controllerCall = some (decide (name = "connect"), c, err) := by
  unfold runEvent
  split <;> simp [Event.controllerCall, *]

/-- No run of `Stress` calls a controller twice, and the one it calls is chosen by the
command name and built from the final config. -/
theorem controllerCalls_sub (env : Env) (name : String) (args : List String)
    (options : Options) :
    controllerCalls (Stress env name args options).state.trace = [] ∨
      controllerCalls (Stress env name args options).state.trace =
        [(decide (name = "connect"), (Stress env name args options).state.config,
          callRun env name (Stress env name args options).state.config)] := by
  obtain ⟨o, c, t, ho, hc, ht, hrun⟩ := Stress_run_cases env name args options
  rw [hc, ht]
  cases hrun with
  | badArgs ha => left; simp [controllerCalls, Event.controllerCall]
  | badName u ha hn2 => left; rfl
  | writerFailed u' c msg tr ha hn hc hw hs =>
    left; exact controllerCalls_quiet (isQuiet_of_setup_list hs)
  | unresolved u' c w d msg tr ha hn hc hw hr hs =>
    left; exact controllerCalls_quiet (isQuiet_of_setup_list hs)
  | poolFailed u' c w d pre a err pools ha hn hc hw hr hp hq =>
    left
    rw [controllerCalls_append, controllerCalls_quiet hq]
    simp [controllerCalls, Event.controllerCall]
  | runFailed u' c w d pre err ha hn hc hw hr hp hq hcall =>
    right
    rw [controllerCalls_append, controllerCalls_quiet hq, hcall]
    simp only [controllerCalls, List.filterMap_cons, runEvent_controllerCall]
    simp [Event.controllerCall]
  | flushFailed u' c w d pre err ha hn hc hw hr hp hq hcall hf =>
    right
    rw [controllerCalls_append, controllerCalls_quiet hq, hcall]
    simp only [controllerCalls, List.filterMap_cons, runEvent_controllerCall]
    simp [Event.controllerCall]
  | finished u' c w d pre ha hn hc hw hr hp hq hcall hf =>
    right
    rw [controllerCalls_append, controllerCalls_append, controllerCalls_quiet hq, hcall,
      controllerCalls_quiet (isQuiet_of_setup_list (deferredEvents_setup d))]
    simp only [controllerCalls, List.filterMap_cons, runEvent_controllerCall]
    simp [Event.controllerCall]

/-- When setup completes, the controller is called, once, on a config that holds the
local pools followed by the remote pools. -/
theorem Stress_of_setup_ok (env : Env) (name u : String) (options : Options)
    (hn : name ∈ stressNames) (hw : writerOk env options = true)
    (hr : targetResolves env u options = true)
    (hp : remotePoolsOk env 0 options.workerAddrs = true) :
    controllerCalls (Stress env name [u] options).state.trace =
        [(decide (name = "connect"), (Stress env name [u] options).state.config,
          callRun env name (Stress env name [u] options).state.config)] ∧
      (Stress env name [u] options).state.config.ClientPools =
        (parseTCPAddrs env options.localAddrs).map ClientPool.localPool ++
          (remotePools env 0 options.workerAddrs).map ClientPool.remotePool := by
  obtain ⟨o, c, t, ho, hc, ht, hrun⟩ := Stress_run_cases env name [u] options
  rw [hc, ht]
  cases hrun with
  | badArgs ha => simp at ha
  | badName u ha hn2 => exact absurd hn hn2
  | writerFailed u' c msg tr ha hn hc hw2 hs => rw [hw] at hw2; exact absurd hw2 (by simp)
  | unresolved u' c w d msg tr ha hn hc hw hr2 hs =>
    cases ha; rw [hr] at hr2; exact absurd hr2 (by simp)
  | poolFailed u' c w d pre a err pools ha hn hc hw hr hp2 hq =>
    rw [hp] at hp2; exact absurd hp2 (by simp)
  | runFailed u' c w d pre err ha hn hc hw hr hp hq hcall =>
    refine ⟨?_, rfl⟩
    rw [controllerCalls_append, controllerCalls_quiet hq, hcall]
    simp only [controllerCalls, List.filterMap_cons, runEvent_controllerCall]
    simp [Event.controllerCall]
  | flushFailed u' c w d pre err ha hn hc hw hr hp hq hcall hf =>
    refine ⟨?_, rfl⟩
    rw [controllerCalls_append, controllerCalls_quiet hq, hcall]
    simp only [controllerCalls, List.filterMap_cons, runEvent_controllerCall]
    simp [Event.controllerCall]
  | finished u' c w d pre ha hn hc hw hr hp hq hcall hf =>
    refine ⟨?_, rfl⟩
    rw [controllerCalls_append, controllerCalls_append, controllerCalls_quiet hq, hcall,
      controllerCalls_quiet (isQuiet_of_setup_list (deferredEvents_setup d))]
    simp only [controllerCalls, List.filterMap_cons, runEvent_controllerCall]
    simp [Event.controllerCall]

/-- The panic on the command name happens exactly for the names outside the three. -/
theorem invalid_name_iff (env : Env) (name u : String) (options : Options) :
    (Stress env name [u] options).outcome =
        Outcome.panic (PanicValue.str "invalid command name") ↔ name ∉ stressNames := by
  obtain ⟨o, c, t, ho, hc, ht, hrun⟩ := Stress_run_cases env name [u] options
  rw [ho]
  cases hrun with
  | badArgs ha => simp at ha
  | badName u ha hn2 => simp [hn2]
  | writerFailed u' c msg tr ha hn hc hw2 hs => simp [hn]
  | unresolved u' c w d msg tr ha hn hc hw hr2 hs => simp [hn]
  | poolFailed u' c w d pre a err pools ha hn hc hw hr hp2 hq => simp [hn]
  | runFailed u' c w d pre err ha hn hc hw hr hp hq hcall => simp [hn]
  | flushFailed u' c w d pre err ha hn hc hw hr hp hq hcall hf => simp [hn]
  | finished u' c w d pre ha hn hc hw hr hp hq hcall hf => simp [hn]

/-- C7: `Stress` dispatches on the command name. Under "echo" `ClientCmd` is
`ClientEchoCmd` and the only controller ever run is the stress controller
(`benchmark.New`), which is run whenever setup completes; likewise under "broadcast" with
`ClientBroadcastCmd`; under "connect" `ClientCmd` keeps its zero value and the controller
is the connect controller (`benchmark.NewConnect`); under every other name `Stress` panics
with "invalid command name" when only URL, origin and server type are set and nothing has
been done; and that panic happens if and only if the name is none of the three. -/
theorem C7_dispatch (env : Env) (name u : String) (options : Options) :
    (name = "echo" →
      (Stress env name [u] options).state.config.ClientCmd = env.ClientEchoCmd ∧
      (∀ call ∈ controllerCalls (Stress env name [u] options).state.trace,
        call = (false, (Stress env name [u] options).state.config,
          env.run (Stress env name [u] options).state.config)) ∧
      (writerOk env options = true → targetResolves env u options = true →
        remotePoolsOk env 0 options.workerAddrs = true →
        controllerCalls (Stress env name [u] options).state.trace =
          [(false, (Stress env name [u] options).state.config,
            env.run (Stress env name [u] options).state.config)])) ∧
    (name = "broadcast" →
      (Stress env name [u] options).state.config.ClientCmd = env.ClientBroadcastCmd ∧
      (∀ call ∈ controllerCalls (Stress env name [u] options).state.trace,
        call = (false, (Stress env name [u] options).state.config,
          env.run (Stress env name [u] options).state.config)) ∧
      (writerOk env options = true → targetResolves env u options = true →
        remotePoolsOk env 0 options.workerAddrs = true →
        controllerCalls (Stress env name [u] options).state.trace =
          [(false, (Stress env name [u] options).state.config,
            env.run (Stress env name [u] options).state.config)])) ∧
    (name = "connect" →
      (Stress env name [u] options).state.config.ClientCmd = 0 ∧
      (∀ call ∈ controllerCalls (Stress env name [u] options).state.trace,
        call = (true, (Stress env name [u] options).state.config,
          env.connectRun (Stress env name [u] options).state.config)) ∧
      (writerOk env options = true → targetResolves env u options = true →
        remotePoolsOk env 0 options.workerAddrs = true →
        controllerCalls (Stress env name [u] options).state.trace =
          [(true, (Stress env name [u] options).state.config,
            env.connectRun (Stress env name [u] options).state.config)])) ∧
    (name ∉ stressNames →
      (Stress env name [u] options).outcome =
        Outcome.panic (PanicValue.str "invalid command name") ∧
      (Stress env name [u] options).state.config =
        { WebsocketURL := u, WebsocketOrigin := options.websocketOrigin,
          ServerType := options.serverType } ∧
      (Stress env name [u] options).state.trace = []) ∧
    ((Stress env name [u] options).outcome =
        Outcome.panic (PanicValue.str "invalid command name") ↔ name ∉ stressNames) := by
  have hsub := controllerCalls_sub env name [u] options
  have hok := Stress_of_setup_ok env name u options
  refine ⟨?_, ?_, ?_, ?_, invalid_name_iff env name u options⟩
  · intro h
    subst h
    have hc : callRun env "echo" = env.run := by funext c; simp [callRun]
    rw [hc] at hsub hok
    refine ⟨?_, ?_, fun hw hr hp => ?_⟩
    · rw [(Stress_config_fields env "echo" u options (by decide)).2.2.2.1]; simp
    · intro call hcall
      rcases hsub with h | h
      · rw [h] at hcall; simp at hcall
      · rw [h] at hcall; simpa using hcall
    · simpa using (hok (by decide) hw hr hp).1
  · intro h
    subst h
    have hc : callRun env "broadcast" = env.run := by funext c; simp [callRun]
    rw [hc] at hsub hok
    refine ⟨?_, ?_, fun hw hr hp => ?_⟩
    · rw [(Stress_config_fields env "broadcast" u options (by decide)).2.2.2.1]; simp
    · intro call hcall
      rcases hsub with h | h
      · rw [h] at hcall; simp at hcall
      · rw [h] at hcall; simpa using hcall
    · simpa using (hok (by decide) hw hr hp).1
  · intro h
    subst h
    have hc : callRun env "connect" = env.connectRun := by funext c; simp [callRun]
    rw [hc] at hsub hok
    refine ⟨?_, ?_, fun hw hr hp => ?_⟩
    · rw [(Stress_config_fields env "connect" u options (by decide)).2.2.2.1]; simp
    · intro call hcall
      rcases hsub with h | h
      · rw [h] at hcall; simp at hcall
      · rw [h] at hcall; simpa using hcall
    · simpa using (hok (by decide) hw hr hp).1
  · intro hn
    have : Stress env name [u] options =
        ⟨.panic (.str "invalid command name"), { config := baseConfig u options }⟩ := by
      simp only [Stress, configure_error env name u options hn]
    rw [this]
    exact ⟨rfl, rfl, rfl⟩

/-- Witness of `C7_dispatch`: `connect` runs the connect controller with `ClientCmd` 0,
and the name `worker` makes `Stress` panic. -/
theorem C7_dispatch_witness :
    ((Stress sampleEnv "connect" ["ws://localhost:3000/ws"] {}).state.config.ClientCmd = 0 ∧
      controllerCalls (Stress sampleEnv "connect" ["ws://localhost:3000/ws"] {}).state.trace =
        [(true, (Stress sampleEnv "connect" ["ws://localhost:3000/ws"] {}).state.config,
          sampleEnv.connectRun
            (Stress sampleEnv "connect" ["ws://localhost:3000/ws"] {}).state.config)]) ∧
    (Stress sampleEnv "worker" ["ws://localhost:3000/ws"] {}).outcome =
      Outcome.panic (PanicValue.str "invalid command name") :=
  ⟨⟨((C7_dispatch sampleEnv "connect" "ws://localhost:3000/ws" {}).2.2.1 rfl).1,
      ((C7_dispatch sampleEnv "connect" "ws://localhost:3000/ws" {}).2.2.1 rfl).2.2
        (by decide) (by decide) (by decide)⟩,
    ((C7_dispatch sampleEnv "worker" "ws://localhost:3000/ws" {}).2.2.2.1 (by decide)).1⟩

/-! ## The client pools -/

/-- When every remote pool is created, there is one per worker address, in the order of
the addresses, each the value `NewRemoteClientPool` returned for that list position. -/
theorem remotePools_spec (env : Env) (l : List String) (i : Nat)
    (h : remotePoolsOk env i l = true) :
    (remotePools env i l).length = l.length ∧
      ∀ (j : Nat) (a : String), l[j]? = some a →
        ∃ rcp, env.newRemoteClientPool (i + j) a = .ok rcp ∧
          (remotePools env i l)[j]? = some rcp := by
  induction l generalizing i with
  | nil => simp [remotePools]
  | cons b l ih =>
    unfold remotePoolsOk at h
    unfold remotePools
    cases hb : env.newRemoteClientPool i b with
    | error e => simp [hb] at h
    | ok rcp =>
      simp only [hb] at h ⊢
      obtain ⟨hlen, hidx⟩ := ih (i + 1) h
      refine ⟨by simp [hlen], ?_⟩
      intro j a hj
      cases j with
      | zero =>
        simp only [List.getElem?_cons_zero, Option.some.injEq] at hj
        subst hj
        exact ⟨rcp, by simpa using hb, by simp⟩
      | succ j =>
        simp only [List.getElem?_cons_succ] at hj
        obtain ⟨rcp', h1, h2⟩ := hidx j a hj
        exact ⟨rcp', by rw [← h1]; congr 1; omega, by simpa using h2⟩

theorem parseTCPAddrs_length (env : Env) (l : List String) :
    (parseTCPAddrs env l).length = max 1 l.length := by
  rw [parseTCPAddrs_eq]
  cases l with
  | nil => simp
  | cons a l => simp

/-- C8: when setup completes (all remote pools are created), the controller is
configured with the local pools in the order of `--local-addr` (one local pool with an unset
address when the list is empty) followed by the remote pools in the order of
`--worker-addr`: `max(1, |L|) + |W|` pools, at least one; `parseTCPAddrs` never returns an
empty list and returns `[nil]` on empty input. -/
theorem C8_client_pools (env : Env) (name u : String) (options : Options)
    (hn : name ∈ stressNames) (hw : writerOk env options = true)
    (hr : targetResolves env u options = true)
    (hp : remotePoolsOk env 0 options.workerAddrs = true) :
    (Stress env name [u] options).state.config.ClientPools =
        (if options.localAddrs = [] then [ClientPool.localPool none]
          else options.localAddrs.map
            (fun s => ClientPool.localPool (some { IP := env.parseIP s }))) ++
          (remotePools env 0 options.workerAddrs).map ClientPool.remotePool ∧
      (remotePools env 0 options.workerAddrs).length = options.workerAddrs.length ∧
      (∀ (i : Nat) (a : String), options.workerAddrs[i]? = some a →
        ∃ rcp, env.newRemoteClientPool i a = .ok rcp ∧
          (Stress env name [u] options).state.config.ClientPools[
            max 1 options.localAddrs.length + i]? = some (ClientPool.remotePool rcp)) ∧
      (Stress env name [u] options).state.config.ClientPools.length =
        max 1 options.localAddrs.length + options.workerAddrs.length ∧
      1 ≤ (Stress env name [u] options).state.config.ClientPools.length ∧
      controllerCalls (Stress env name [u] options).state.trace =
        [(decide (name = "connect"), (Stress env name [u] options).state.config,
          callRun env name (Stress env name [u] options).state.config)] ∧
      (∀ l : List String, parseTCPAddrs env l ≠ []) ∧
      parseTCPAddrs env [] = [none] := by
  obtain ⟨hcalls, hpools⟩ := Stress_of_setup_ok env name u options hn hw hr hp
  obtain ⟨hlen, hidx⟩ := remotePools_spec env options.workerAddrs 0 hp
  have hloc : ((parseTCPAddrs env options.localAddrs).map ClientPool.localPool).length =
      max 1 options.localAddrs.length := by
    rw [List.length_map, parseTCPAddrs_length]
  have htotal : (Stress env name [u] options).state.config.ClientPools.length =
      max 1 options.localAddrs.length + options.workerAddrs.length := by
    rw [hpools, List.length_append, hloc, List.length_map, hlen]
  refine ⟨?_, hlen, ?_, htotal, ?_, hcalls, ?_, ?_⟩
  · rw [hpools, parseTCPAddrs_eq]
    split <;> simp
  · intro i a hi
    obtain ⟨rcp, h1, h2⟩ := hidx i a hi
    refine ⟨rcp, by simpa using h1, ?_⟩
    rw [hpools, List.getElem?_append_right (by rw [hloc]; exact Nat.le_add_right _ _), hloc]
    simp [h2]
  · rw [htotal]; omega
  · intro l hl
    have := parseTCPAddrs_length env l
    rw [hl] at this
    simp at this
    omega
  · rfl

/-- Witness of `C8_client_pools`: two local addresses and one worker give three pools. -/
theorem C8_client_pools_witness :
    ("echo" ∈ stressNames ∧
      writerOk sampleEnv { localAddrs := ["10.0.0.1", "10.0.0.2"], workerAddrs := ["w1:3000"] } =
        true ∧
      targetResolves sampleEnv "ws://localhost:3000/ws"
        { localAddrs := ["10.0.0.1", "10.0.0.2"], workerAddrs := ["w1:3000"] } = true ∧
      remotePoolsOk sampleEnv 0 ["w1:3000"] = true) ∧
    (Stress sampleEnv "echo" ["ws://localhost:3000/ws"]
      { localAddrs := ["10.0.0.1", "10.0.0.2"],
        workerAddrs := ["w1:3000"] }).state.config.ClientPools.length = 3 :=
  ⟨⟨by decide, by decide, by decide, by decide⟩,
    (C8_client_pools sampleEnv "echo" "ws://localhost:3000/ws"
      { localAddrs := ["10.0.0.1", "10.0.0.2"], workerAddrs := ["w1:3000"] }
      (by decide) (by decide) (by decide) (by decide)).2.2.2.1⟩

/-! ## `parseRemoteAddr` and the port -/

theorem decimal_foldl_ge (cs : List Char) (acc : Nat) :
    acc ≤ cs.foldl (fun n c => n * 10 + (c.toNat - 48)) acc := by
  induction cs generalizing acc with
  | nil => simp
  | cons c cs ih =>
    simp only [List.foldl_cons]
    exact le_trans (by omega) (ih _)

/-- The digit loop succeeds exactly on strings of decimal digits whose value, continued
from the accumulator, stays within 16 bits. -/
theorem parseUintLoop_ok_iff (cs : List Char) (acc n : Nat) (hacc : acc ≤ 65535) :
    parseUintLoop cs acc = .ok n ↔
      cs.all Char.isDigit = true ∧
        cs.foldl (fun n c => n * 10 + (c.toNat - 48)) acc = n ∧ n ≤ 65535 := by
  induction cs generalizing acc with
  | nil =>
    simp only [parseUintLoop, Except.ok.injEq, List.all_nil, List.foldl_nil, true_and]
    constructor
    · intro h; subst h; exact ⟨rfl, hacc⟩
    · intro h; exact h.1
  | cons c cs ih =>
    unfold parseUintLoop
    by_cases hd : c.isDigit = true
    · by_cases hbig : acc * 10 + (c.toNat - 48) > 65535
      · simp only [hd, hbig, if_true, List.all_cons, List.foldl_cons, Bool.true_and]
        constructor
        · intro h; cases h
        · rintro ⟨_, h2, h3⟩
          have := decimal_foldl_ge cs (acc * 10 + (c.toNat - 48))
          omega
      · simp only [hd, hbig, if_true, if_false, List.all_cons, List.foldl_cons, Bool.true_and]
        exact ih _ (by omega)
    · simp only [hd, List.all_cons, List.foldl_cons]
      constructor
      · intro h; cases h
      · rintro ⟨h1, _⟩
        simp only [Bool.and_eq_true] at h1
        exact absurd h1.1 (by decide)

/-- The call `strconv.ParseUint(s, 10, 16)` succeeds with `n` exactly when `s` is a
non-empty string of decimal digits denoting `n` and `n ≤ 65535`. -/
theorem ParseUint_ok_iff (s : String) (n : Nat) :
    ParseUint s = .ok n ↔
      s.data ≠ [] ∧ s.data.all Char.isDigit = true ∧ decimalValue s.data = n ∧ n ≤ 65535 := by
  unfold ParseUint decimalValue
  by_cases h : s.data = []
  · simp [h]
  · simp only [h, if_false, ne_eq, not_false_eq_true, true_and]
    exact parseUintLoop_ok_iff s.data 0 n (by omega)

/-- C9: `parseRemoteAddr` succeeds exactly when its input splits into host and port, the
lookup of the host succeeds and the port text is a non-empty string of decimal digits with
value at most 65535; then the address has that value as `Port`, the parse of the first
looked-up address as `IP`, and the host part is returned. In every other case (the split
fails, as it does without an explicit port; the lookup fails; the port is not a number or
exceeds 65535) it returns a nil address, an empty host and a non-nil error. -/
theorem C9_parseRemoteAddr (env : Env) (url : String) :
    (∀ addr host, (parseRemoteAddr env url).1 = (some addr, host, none) ↔
      ∃ port ip rest n, env.splitHostPort url = .ok (host, port) ∧
        env.lookupHost host = .ok (ip, rest) ∧
        port.data ≠ [] ∧ port.data.all Char.isDigit = true ∧
        decimalValue port.data = n ∧ n ≤ 65535 ∧
        addr = { IP := env.parseIP ip, Port := (n : Int) }) ∧
    ((∃ addr host, (parseRemoteAddr env url).1 = (some addr, host, none)) ∨
      ∃ err, (parseRemoteAddr env url).1 = (none, "", some err)) ∧
    (∀ err, env.splitHostPort url = .error err →
      (parseRemoteAddr env url).1 = (none, "", some err)) ∧
    (∀ host port err, env.splitHostPort url = .ok (host, port) →
      env.lookupHost host = .error err →
      (parseRemoteAddr env url).1 = (none, "", some err)) ∧
    (∀ host port ip rest, env.splitHostPort url = .ok (host, port) →
      env.lookupHost host = .ok (ip, rest) →
      (port.data = [] ∨ port.data.all Char.isDigit = false ∨ 65535 < decimalValue port.data) →
      ∃ err, (parseRemoteAddr env url).1 = (none, "", some err)) := by
  refine ⟨?_, ?_, ?_, ?_, ?_⟩
  · intro addr host
    unfold parseRemoteAddr
    rcases h1 : env.splitHostPort url with e1 | ⟨h, p⟩
    · simp
    · rcases h2 : env.lookupHost h with e2 | ⟨ip, rest⟩
      · simp only [h2]
        constructor
        · intro hh; simp at hh
        · rintro ⟨port, ip, rest, n, hsp, hl, _⟩
          simp only [Except.ok.injEq, Prod.mk.injEq] at hsp
          rw [← hsp.1, h2] at hl
          cases hl
      · rcases h3 : ParseUint p with e3 | m
        · simp only [h2, h3]
          constructor
          · intro hh; simp at hh
          · rintro ⟨port, ip', rest', n, hsp, hl, hne, hdig, hval, hle, _⟩
            simp only [Except.ok.injEq, Prod.mk.injEq] at hsp
            have := (ParseUint_ok_iff port n).2 ⟨hne, hdig, hval, hle⟩
            rw [← hsp.2, h3] at this
            cases this
        · simp only [h2, h3]
          obtain ⟨hne, hdig, hval, hle⟩ := (ParseUint_ok_iff p m).1 h3
          constructor
          · intro hh
            simp only [Prod.mk.injEq, Option.some.injEq, and_true] at hh
            obtain ⟨rfl, rfl⟩ := hh
            exact ⟨p, ip, rest, m, rfl, h2, hne, hdig, hval, hle, rfl⟩
          · rintro ⟨port, ip', rest', n, hsp, hl, hne', hdig', hval', hle', haddr⟩
            simp only [Except.ok.injEq, Prod.mk.injEq] at hsp
            obtain ⟨rfl, rfl⟩ := hsp
            rw [h2] at hl
            simp only [Except.ok.injEq, Prod.mk.injEq] at hl
            obtain ⟨rfl, rfl⟩ := hl
            have hm : m = n := by rw [← hval, ← hval']
            subst hm
            rw [haddr]
  · unfold parseRemoteAddr
    rcases h1 : env.splitHostPort url with e1 | ⟨h, p⟩
    · exact Or.inr ⟨e1, rfl⟩
    · rcases h2 : env.lookupHost h with e2 | ⟨ip, rest⟩
      · exact Or.inr ⟨e2, by simp only [h2]⟩
      · rcases h3 : ParseUint p with e3 | m
        · exact Or.inr ⟨e3, by simp only [h2, h3]⟩
        · exact Or.inl ⟨{ IP := env.parseIP ip, Port := (m : Int) }, h, by simp only [h2, h3]⟩
  · intro err h1
    unfold parseRemoteAddr
    simp only [h1]
  · intro host port err h1 h2
    unfold parseRemoteAddr
    simp only [h1, h2]
  · intro host port ip rest h1 h2 hbad
    unfold parseRemoteAddr
    rcases h3 : ParseUint port with e3 | m
    · exact ⟨e3, by simp only [h1, h2, h3]⟩
    · obtain ⟨hne, hdig, hval, hle⟩ := (ParseUint_ok_iff port m).1 h3
      rcases hbad with hb | hb | hb
      · exact absurd hb hne
      · rw [hdig] at hb; cases hb
      · omega

/-- Witness of `C9_parseRemoteAddr`: `localhost:3000` gives port 3000 on the first
looked-up address. -/
theorem C9_parseRemoteAddr_witness :
    (parseRemoteAddr sampleEnv "localhost:3000").1 =
      (some { IP := [127, 0, 0, 1], Port := 3000 }, "localhost", none) :=
  ((C9_parseRemoteAddr sampleEnv "localhost:3000").1
    { IP := [127, 0, 0, 1], Port := 3000 } "localhost").2
    ⟨"3000", "127.0.0.1", [], 3000, rfl, rfl, by decide, by decide, by decide, by decide, rfl⟩

/-! ## The worker -/

/-- C10: `Work` starts the worker on the configured listen address with the port
`p mod 2^16`, whatever the integer `p` of `--port` is: the port is `p` exactly when
`0 ≤ p ≤ 65535`, and any other `p` is not rejected but wrapped (70000 becomes 4464). -/
theorem C10_worker_port (env : Env) (options : Options) :
    (Work env options).state.trace.head? =
        some (Event.newWorker options.workerListenAddr (uint16 options.workerListenPort)) ∧
      ((uint16 options.workerListenPort : Int) = options.workerListenPort % 65536) ∧
      ((uint16 options.workerListenPort : Int) = options.workerListenPort ↔
        0 ≤ options.workerListenPort ∧ options.workerListenPort ≤ 65535) ∧
      (Work env { options with workerListenPort := 70000 }).state.trace.head? =
        some (Event.newWorker options.workerListenAddr 4464) := by
  have hmod : (uint16 options.workerListenPort : Int) = options.workerListenPort % 65536 := by
    unfold uint16
    exact Int.toNat_of_nonneg (Int.emod_nonneg _ (by decide))
  refine ⟨?_, hmod, ?_, ?_⟩
  · rcases h : env.serve options.workerListenAddr (uint16 options.workerListenPort) with
      _ | err <;> simp [Work, h]
  · rw [hmod]
    constructor
    · intro h
      have h1 := Int.emod_nonneg options.workerListenPort (show (65536 : Int) ≠ 0 by decide)
      have h2 := Int.emod_lt_of_pos options.workerListenPort (show (0 : Int) < 65536 by decide)
      omega
    · rintro ⟨h1, h2⟩
      exact Int.emod_eq_of_lt h1 (by omega)
  · have h70000 : uint16 70000 = 4464 := by decide
    rcases h : env.serve options.workerListenAddr 4464 with _ | err <;>
      simp [Work, h70000, h]

end WebsocketBench
